import Mathlib

/-!
# The homepage worker: request handler and notification dispatcher

A shallow embedding of `src/cloudflare-worker.js` (`sendNotification`, `handleRequest`).

* The asynchronous handler becomes a function from the request, the contents of the
  `KV_MESSAGES` store and the behaviour of the collaborators during the request (`Env`) to the
  response, the contents of the store afterwards and the list of effects it performed.
* `JSON.parse`, `JSON.stringify` and the rendering of numbers are builtins of the engine, not code
  of the repository: the development is parametric in them (`Runtime`).
* JSON numbers are the integers (`Date.now()` is an integer count of milliseconds).
* A thrown exception is the value `none` of the step that throws; the `catch` blocks of the
  source are the branches on it.
* `handleRequest` gives `none` only for `GET /api/messages` on a stored list with an element
  that is not an object with an integer `timestamp`: the comparator then yields `NaN` or coerces
  its operands, and the result of `sort` is outside this model.
-/

namespace Worker

set_option maxRecDepth 65536

/-! ## JSON values -/

/-- The values `JSON.parse` produces. -/
inductive Json where
  | null
  | bool (b : Bool)
  | num (n : Int)
  | str (s : String)
  | arr (items : List Json)
  | obj (fields : List (String × Json))

/-- The first binding of `key` in the fields of an object. -/
def lookupField (key : String) : List (String × Json) → Option Json
  | [] => none
  | (k, v) :: rest => if k = key then some v else lookupField key rest

/-- The property read `v.key` on a value other than `null`, for the property names the worker
uses (`name`, `email`, `content`, `message`, `timestamp`): an own field of an object, otherwise
`undefined`, which is `none`. -/
def Json.prop (v : Json) (key : String) : Option Json :=
  match v with
  | Json.obj fields => lookupField key fields
  | _ => none

/-- JavaScript truthiness of a value that may be `undefined`. -/
def truthy : Option Json → Bool
  | none => false
  | some Json.null => false
  | some (Json.bool b) => b
  | some (Json.num n) => n != 0
  | some (Json.str s) => s != ""
  | some (Json.arr _) => true
  | some (Json.obj _) => true

/-- The expression `v || d` for a default `d` that is a value. -/
def orElse (v : Option Json) (d : Json) : Json :=
  match v with
  | some x => if truthy (some x) then x else d
  | none => d

/-! ## The engine and the collaborators -/

/-- The builtins of the JavaScript engine the worker calls. -/
structure Runtime where
  /-- The builtin `JSON.parse`; `none` is a thrown `SyntaxError`. -/
  parse : String → Option Json
  /-- The builtin `JSON.stringify` on a JSON value. -/
  stringify : Json → String
  /-- The string a number is converted to inside a template literal. -/
  numberToString : Int → String

/-- The contents of the `KV_MESSAGES` namespace: `get` of a key without a value is `null`. -/
abbrev Store := String → Option String

/-- The contents after a completed `put(key, value)`. -/
def Store.put (kv : Store) (key value : String) : Store :=
  fun k => if k = key then some value else kv k

/-- An outbound `fetch(url, {method, headers, body})`. -/
structure OutRequest where
  url : String
  method : String
  headers : List (String × String)
  body : Option String

/-- What an outbound `fetch` does: it rejects, or it resolves to a response. -/
inductive FetchResult where
  | rejected
  | response (status : Nat) (body : String)

/-- The behaviour of the collaborators during one request. -/
structure Env where
  /-- The value of the `k`-th call of `Date.now()` during the request, counted from 0. -/
  now : Nat → Int
  /-- Whether `KV_MESSAGES.get(key)` rejects. -/
  getThrows : String → Bool
  /-- Whether `KV_MESSAGES.put(key, value)` rejects; a rejected `put` stores nothing. -/
  putThrows : String → String → Bool
  /-- The global `NOTIFICATION_API_URL`: `none` when the environment defines no such binding,
  in which case evaluating the identifier throws a `ReferenceError`. -/
  notificationApiUrl : Option String
  /-- The outcome of an outbound `fetch`. -/
  fetch : OutRequest → FetchResult

/-- The effects of a request, in the order they happen. -/
inductive Event where
  /-- A call of `KV_MESSAGES.get(key)`; `rejected` tells whether it threw. -/
  | kvGet (key : String) (rejected : Bool)
  /-- A call of `KV_MESSAGES.put(key, value)`; `rejected` tells whether it threw. -/
  | kvPut (key value : String) (rejected : Bool)
  /-- An outbound `fetch`. -/
  | fetch (req : OutRequest)
  /-- A line written with `console.log`. -/
  | log (msg : String)
  /-- A line written with `console.error`. -/
  | error (msg : String)

/-- Whether the event is an outbound `fetch`. -/
def Event.isFetch : Event → Bool
  | Event.fetch _ => true
  | _ => false

/-- Whether the event is a call of `KV_MESSAGES.put`. -/
def Event.isPut : Event → Bool
  | Event.kvPut _ _ _ => true
  | _ => false

/-- Whether the event is a call of `KV_MESSAGES.get`. -/
def Event.isGet : Event → Bool
  | Event.kvGet _ _ => true
  | _ => false

/-- Whether the event is a call of the store that threw. -/
def Event.isStoreFailure : Event → Bool
  | Event.kvGet _ r => r
  | Event.kvPut _ _ r => r
  | _ => false

/-! ## Requests and responses -/

/-- An inbound request: its method, `new URL(request.url).pathname`, and the text of its body. -/
structure Request where
  method : String
  path : String
  body : String

/-- A `Response`: its status, headers and body (`none` for the `null` body). -/
structure Response where
  status : Nat
  headers : List (String × String)
  body : Option String

/-- What a request did: the response, the store afterwards, and its effects. -/
structure Outcome where
  response : Response
  kv : Store
  trace : List Event

/-- The constant `corsHeaders` of `handleRequest`. -/
def corsHeaders : List (String × String) :=
  [("Access-Control-Allow-Origin", "*"),
   ("Access-Control-Allow-Methods", "GET, POST, OPTIONS"),
   ("Access-Control-Allow-Headers", "Content-Type"),
   ("Content-Type", "application/json")]

/-- The value of a header in a header list. -/
def header (name : String) : List (String × String) → Option String
  | [] => none
  | (k, v) :: rest => if k = name then some v else header name rest

/-- `new Response(JSON.stringify(value), { status, headers: corsHeaders })`. -/
def jsonResponse (rt : Runtime) (status : Nat) (value : Json) : Response :=
  { status := status, headers := corsHeaders, body := some (rt.stringify value) }

/-- The object `{ error: msg }`. -/
def errorObj (msg : String) : Json :=
  Json.obj [("error", Json.str msg)]

/-! ## Conversion to a string -/

mutual
/-- `ToString` of a value, as a template literal applies it; `none` is a thrown `TypeError`.
An array is joined with commas, a `null` element giving the empty string. An object gives
`[object Object]` through `Object.prototype.toString`, unless it has an own field `toString`:
no JSON value is callable, and `valueOf` gives no primitive, so the conversion throws. -/
def toStr (rt : Runtime) : Json → Option String
  | Json.null => some "null"
  | Json.bool true => some "true"
  | Json.bool false => some "false"
  | Json.num n => some (rt.numberToString n)
  | Json.str s => some s
  | Json.arr items => joinItems rt items
  | Json.obj fields =>
    match lookupField "toString" fields with
    | some _ => none
    | none => some "[object Object]"
/-- `Array.prototype.join` with the separator `,`. -/
def joinItems (rt : Runtime) : List Json → Option String
  | [] => some ""
  | Json.null :: rest =>
    match rest with
    | [] => some ""
    | _ :: _ => (joinItems rt rest).map fun r => "," ++ r
  | x :: rest =>
    match toStr rt x with
    | none => none
    | some s =>
      match rest with
      | [] => some s
      | _ :: _ => (joinItems rt rest).map fun r => s ++ "," ++ r
end

/-- `ToString` of a value that may be `undefined`. -/
def toStrU (rt : Runtime) : Option Json → Option String
  | none => some "undefined"
  | some v => toStr rt v

/-! ## sendNotification -/

/-- The text of the notification: the template literals of `sendNotification` for the two known
types. The outer `none` is the early `return` for an unknown type, the inner `none` a `TypeError`
thrown while a field is converted to a string. -/
def notificationText (rt : Runtime) (type : String) (data : Json) : Option (Option String) :=
  if type = "message" then
    some do
      let name ← toStrU rt (data.prop "name")
      let email ← toStr rt (orElse (data.prop "email") (Json.str "未提供邮箱"))
      let content ← toStrU rt (data.prop "content")
      pure ("新留言通知" ++ "\n\n" ++ ("收到来自 " ++ name ++ " (" ++ email ++ ") 的新留言：\n" ++ content))
  else if type = "contact" then
    some do
      let name ← toStrU rt (data.prop "name")
      let email ← toStrU rt (data.prop "email")
      let message ← toStrU rt (data.prop "message")
      pure ("新联系表单提交" ++ "\n\n" ++ ("收到来自 " ++ name ++ " (" ++ email ++ ") 的联系表单：\n" ++ message))
  else
    none

/-- The request `sendNotification` posts to the webhook. -/
def notificationRequest (rt : Runtime) (url text : String) : OutRequest :=
  { url := url
    method := "POST"
    headers := [("Content-Type", "application/json")]
    body := some (rt.stringify
      (Json.obj [("msg_type", Json.str "text"), ("content", Json.obj [("text", Json.str text)])])) }

/-- The function `sendNotification(type, data)`: the effects it performs when it returns, and
`none` when it throws. The global `NOTIFICATION_API_URL` is read before the `try`, so a missing
binding throws to the caller; everything after is inside the `try`, whose `catch` only logs. -/
def sendNotification (rt : Runtime) (env : Env) (type : String) (data : Json) :
    Option (List Event) :=
  match env.notificationApiUrl with
  | none => none
  | some url =>
    if url = "" then
      some [Event.log "通知功能未配置，跳过发送通知"]
    else
      match notificationText rt type data with
      | none => some []
      | some none => some [Event.error "发送通知时出错:"]
      | some (some text) =>
        match env.fetch (notificationRequest rt url text) with
        | FetchResult.rejected =>
          some [Event.fetch (notificationRequest rt url text), Event.error "发送通知时出错:"]
        | FetchResult.response status _ =>
          if 200 ≤ status ∧ status ≤ 299 then
            some [Event.fetch (notificationRequest rt url text), Event.log "通知发送成功"]
          else
            some [Event.fetch (notificationRequest rt url text), Event.error "发送通知时出错:"]

/-! ## Sorting the messages -/

/-- The field `timestamp` of an object when it is a number. -/
def timestampOf (v : Json) : Option Int :=
  match v.prop "timestamp" with
  | some (Json.num n) => some n
  | _ => none

/-- The comparator `(a, b) => b.timestamp - a.timestamp` on elements with integer timestamps.
`getMessages` applies it to such elements only; elsewhere its value here is 0. -/
def compareFn (a b : Json) : Int :=
  match timestampOf b, timestampOf a with
  | some tb, some ta => tb - ta
  | _, _ => 0

/-- Insertion of `a` in front of the first element it does not come after. -/
def insertSorted (cmp : Json → Json → Int) (a : Json) : List Json → List Json
  | [] => [a]
  | b :: rest => if cmp a b ≤ 0 then a :: b :: rest else b :: insertSorted cmp a rest

/-- `Array.prototype.sort(cmp)`: the sort is stable, so for a consistent comparator its result is
the one of a stable insertion sort. -/
def arraySort (cmp : Json → Json → Int) : List Json → List Json
  | [] => []
  | a :: rest => insertSorted cmp a (arraySort cmp rest)

/-- The expression `json ? JSON.parse(json) : []` on the result of a `get`: a missing value and the
empty string are falsy; `none` is a thrown `SyntaxError`. -/
def parseOrEmpty (rt : Runtime) : Option String → Option Json
  | none => some (Json.arr [])
  | some text => if text = "" then some (Json.arr []) else rt.parse text

/-! ## handleRequest -/

/-- The branch `GET /api/hitokoto`. -/
def getHitokoto (rt : Runtime) (env : Env) (kv : Store) : Outcome :=
  let out : OutRequest := { url := "https://v1.hitokoto.cn", method := "GET", headers := [], body := none }
  match env.fetch out with
  | FetchResult.rejected =>
    ⟨jsonResponse rt 500 (errorObj "获取一言失败"), kv, [Event.fetch out]⟩
  | FetchResult.response _ body =>
    match rt.parse body with
    | none => ⟨jsonResponse rt 500 (errorObj "获取一言失败"), kv, [Event.fetch out]⟩
    | some data => ⟨jsonResponse rt 200 data, kv, [Event.fetch out]⟩

/-- The branch `GET /api/messages`. The result is `none` where the behaviour of `sort` is outside
this model: when some element of the stored list is not an object with an integer `timestamp`. -/
def getMessages (rt : Runtime) (env : Env) (kv : Store) : Option Outcome :=
  if env.getThrows "wall-messages" then
    some ⟨jsonResponse rt 500 (errorObj "获取留言失败"), kv, [Event.kvGet "wall-messages" true]⟩
  else
    match parseOrEmpty rt (kv "wall-messages") with
    | none =>
      some ⟨jsonResponse rt 500 (errorObj "获取留言失败"), kv, [Event.kvGet "wall-messages" false]⟩
    | some (Json.arr messages) =>
      if messages.all (fun m => (timestampOf m).isSome) then
        some ⟨jsonResponse rt 200 (Json.arr (arraySort compareFn messages)), kv,
          [Event.kvGet "wall-messages" false]⟩
      else
        none
    | some _ =>
      some ⟨jsonResponse rt 500 (errorObj "获取留言失败"), kv, [Event.kvGet "wall-messages" false]⟩

/-- The object `newMessage`. -/
def newMessage (env : Env) (name : Json) (email : Option Json) (content : Json) : Json :=
  Json.obj [("id", Json.num (env.now 0)), ("name", name), ("email", orElse email (Json.str "")),
    ("content", content), ("timestamp", Json.num (env.now 1))]

/-- The branch `POST /api/messages`. -/
def postMessage (rt : Runtime) (env : Env) (kv : Store) (request : Request) : Outcome :=
  match rt.parse request.body with
  | none => ⟨jsonResponse rt 500 (errorObj "添加留言失败"), kv, []⟩
  | some Json.null => ⟨jsonResponse rt 500 (errorObj "添加留言失败"), kv, []⟩
  | some data =>
    match data.prop "name", data.prop "content" with
    | some name, some content =>
      if !truthy (some name) || !truthy (some content) then
        ⟨jsonResponse rt 400 (errorObj "缺少必填字段"), kv, []⟩
      else if env.getThrows "wall-messages" then
        ⟨jsonResponse rt 500 (errorObj "添加留言失败"), kv, [Event.kvGet "wall-messages" true]⟩
      else
        match parseOrEmpty rt (kv "wall-messages") with
        | some (Json.arr messages) =>
          let created := newMessage env name (data.prop "email") content
          let value := rt.stringify (Json.arr (messages ++ [created]))
          if env.putThrows "wall-messages" value then
            ⟨jsonResponse rt 500 (errorObj "添加留言失败"), kv,
              [Event.kvGet "wall-messages" false, Event.kvPut "wall-messages" value true]⟩
          else
            match sendNotification rt env "message" created with
            | none =>
              ⟨jsonResponse rt 500 (errorObj "添加留言失败"), kv.put "wall-messages" value,
                [Event.kvGet "wall-messages" false, Event.kvPut "wall-messages" value false]⟩
            | some events =>
              ⟨jsonResponse rt 200 created, kv.put "wall-messages" value,
                [Event.kvGet "wall-messages" false, Event.kvPut "wall-messages" value false]
                  ++ events⟩
        | _ =>
          ⟨jsonResponse rt 500 (errorObj "添加留言失败"), kv, [Event.kvGet "wall-messages" false]⟩
    | _, _ => ⟨jsonResponse rt 400 (errorObj "缺少必填字段"), kv, []⟩

/-- The object `newContact`. -/
def newContact (env : Env) (name email message : Json) : Json :=
  Json.obj [("id", Json.num (env.now 0)), ("name", name), ("email", email),
    ("message", message), ("timestamp", Json.num (env.now 1))]

/-- The branch `POST /api/contact`. -/
def postContact (rt : Runtime) (env : Env) (kv : Store) (request : Request) : Outcome :=
  match rt.parse request.body with
  | none => ⟨jsonResponse rt 500 (errorObj "提交联系表单失败"), kv, []⟩
  | some Json.null => ⟨jsonResponse rt 500 (errorObj "提交联系表单失败"), kv, []⟩
  | some data =>
    match data.prop "name", data.prop "email", data.prop "message" with
    | some name, some email, some message =>
      if !truthy (some name) || !truthy (some email) || !truthy (some message) then
        ⟨jsonResponse rt 400 (errorObj "缺少必填字段"), kv, []⟩
      else if env.getThrows "contact-submissions" then
        ⟨jsonResponse rt 500 (errorObj "提交联系表单失败"), kv,
          [Event.kvGet "contact-submissions" true]⟩
      else
        match parseOrEmpty rt (kv "contact-submissions") with
        | some (Json.arr contacts) =>
          let created := newContact env name email message
          let value := rt.stringify (Json.arr (contacts ++ [created]))
          if env.putThrows "contact-submissions" value then
            ⟨jsonResponse rt 500 (errorObj "提交联系表单失败"), kv,
              [Event.kvGet "contact-submissions" false,
                Event.kvPut "contact-submissions" value true]⟩
          else
            match sendNotification rt env "contact" created with
            | none =>
              ⟨jsonResponse rt 500 (errorObj "提交联系表单失败"),
                kv.put "contact-submissions" value,
                [Event.kvGet "contact-submissions" false,
                  Event.kvPut "contact-submissions" value false]⟩
            | some events =>
              ⟨jsonResponse rt 200 (Json.obj [("success", Json.bool true)]),
                kv.put "contact-submissions" value,
                [Event.kvGet "contact-submissions" false,
                  Event.kvPut "contact-submissions" value false] ++ events⟩
        | _ =>
          ⟨jsonResponse rt 500 (errorObj "提交联系表单失败"), kv,
            [Event.kvGet "contact-submissions" false]⟩
    | _, _, _ => ⟨jsonResponse rt 400 (errorObj "缺少必填字段"), kv, []⟩

/-- The function `handleRequest(request)`. The result is `none` only where `getMessages` is. -/
def handleRequest (rt : Runtime) (env : Env) (kv : Store) (request : Request) : Option Outcome :=
  if request.method = "OPTIONS" then
    some ⟨{ status := 200, headers := corsHeaders, body := none }, kv, []⟩
  else if request.path = "/api/hitokoto" ∧ request.method = "GET" then
    some (getHitokoto rt env kv)
  else if request.path = "/api/messages" ∧ request.method = "GET" then
    getMessages rt env kv
  else if request.path = "/api/messages" ∧ request.method = "POST" then
    some (postMessage rt env kv request)
  else if request.path = "/api/contact" ∧ request.method = "POST" then
    some (postContact rt env kv request)
  else
    some ⟨jsonResponse rt 404 (errorObj "未找到请求的资源"), kv, []⟩

/-- The store holds the JSON list `L` under `key`, or nothing (and `L` is empty): the text of a
list is never the empty string. -/
def holdsList (rt : Runtime) (kv : Store) (key : String) (L : List Json) : Prop :=
  (kv key = none ∧ L = []) ∨
    ∃ text, text ≠ "" ∧ kv key = some text ∧ rt.parse text = some (Json.arr L)

/-- The order `arraySort compareFn` establishes: `b` may follow `a` when both have an integer
timestamp and the one of `b` is not larger. -/
def mayFollow (a b : Json) : Prop :=
  ∃ ta tb, timestampOf a = some ta ∧ timestampOf b = some tb ∧ tb ≤ ta

/-- The engine reads back the text it prints for `v`: the text is not empty and
`JSON.parse(JSON.stringify(v))` is `v`. -/
def readsBack (rt : Runtime) (v : Json) : Prop :=
  rt.stringify v ≠ "" ∧ rt.parse (rt.stringify v) = some v

/-! ## A concrete engine for evaluating examples -/

/-- The double quote. -/
def quoteChar : Char := Char.ofNat 34

/-- The backslash. -/
def backslash : Char := Char.ofNat 92

/-- Escaping of the characters of a string literal: the quote, the backslash, the newline. -/
def escapeChars : List Char → List Char
  | [] => []
  | c :: rest =>
    if c = quoteChar ∨ c = backslash then backslash :: c :: escapeChars rest
    else if c = '\n' then backslash :: 'n' :: escapeChars rest
    else c :: escapeChars rest

/-- A JSON string literal. -/
def quoteString (s : String) : String :=
  String.mk (quoteChar :: escapeChars s.data ++ [quoteChar])

mutual
/-- Compact JSON text of a value, fields in order. -/
def render : Json → String
  | Json.null => "null"
  | Json.bool true => "true"
  | Json.bool false => "false"
  | Json.num n => toString n
  | Json.str s => quoteString s
  | Json.arr items => "[" ++ renderItems items ++ "]"
  | Json.obj fields => "\x7b" ++ renderFields fields ++ "\x7d"
/-- The elements of an array, separated by commas. -/
def renderItems : List Json → String
  | [] => ""
  | [x] => render x
  | x :: rest => render x ++ "," ++ renderItems rest
/-- The fields of an object, separated by commas. -/
def renderFields : List (String × Json) → String
  | [] => ""
  | [(k, v)] => quoteString k ++ ":" ++ render v
  | (k, v) :: rest => quoteString k ++ ":" ++ render v ++ "," ++ renderFields rest
end

/-- Dropping leading white space. -/
def skipWs : List Char → List Char
  | [] => []
  | c :: rest => if c = ' ' ∨ c = '\n' ∨ c = '\t' ∨ c = '\r' then skipWs rest else c :: rest

/-- Reading a run of decimal digits. -/
def readDigits : List Char → Nat → Nat × List Char
  | [], acc => (acc, [])
  | c :: rest, acc =>
    if c.isDigit then readDigits rest (10 * acc + (c.toNat - 48)) else (acc, c :: rest)

/-- Reading a string literal after its opening quote. -/
def readString : List Char → List Char → Option (String × List Char)
  | [], _ => none
  | c :: rest, acc =>
    if c = quoteChar then some (String.mk acc.reverse, rest)
    else if c = backslash then
      match rest with
      | [] => none
      | e :: rest2 =>
        if e = 'n' then readString rest2 ('\n' :: acc)
        else if e = quoteChar ∨ e = backslash ∨ e = '/' then readString rest2 (e :: acc)
        else none
    else readString rest (c :: acc)

mutual
/-- Reading one JSON value (integers only, the escapes of `escapeChars`), with fuel. -/
def readValue : Nat → List Char → Option (Json × List Char)
  | 0, _ => none
  | fuel + 1, cs =>
    match skipWs cs with
    | 'n' :: 'u' :: 'l' :: 'l' :: rest => some (Json.null, rest)
    | 't' :: 'r' :: 'u' :: 'e' :: rest => some (Json.bool true, rest)
    | 'f' :: 'a' :: 'l' :: 's' :: 'e' :: rest => some (Json.bool false, rest)
    | '[' :: rest =>
      match skipWs rest with
      | ']' :: rest2 => some (Json.arr [], rest2)
      | _ => (readItems fuel rest).map fun r => (Json.arr r.1, r.2)
    | '\x7b' :: rest =>
      match skipWs rest with
      | '\x7d' :: rest2 => some (Json.obj [], rest2)
      | _ => (readFields fuel rest).map fun r => (Json.obj r.1, r.2)
    | '-' :: c :: rest =>
      if c.isDigit then
        let r := readDigits (c :: rest) 0
        some (Json.num (-(r.1 : Int)), r.2)
      else none
    | c :: rest =>
      if c = quoteChar then (readString rest []).map fun r => (Json.str r.1, r.2)
      else if c.isDigit then
        let r := readDigits (c :: rest) 0
        some (Json.num (r.1 : Int), r.2)
      else none
    | [] => none
/-- Reading the elements of an array up to its closing bracket. -/
def readItems : Nat → List Char → Option (List Json × List Char)
  | 0, _ => none
  | fuel + 1, cs =>
    match readValue fuel cs with
    | none => none
    | some (v, rest) =>
      match skipWs rest with
      | ',' :: rest2 => (readItems fuel rest2).map fun r => (v :: r.1, r.2)
      | ']' :: rest2 => some ([v], rest2)
      | _ => none
/-- Reading the fields of an object up to its closing brace. -/
def readFields : Nat → List Char → Option (List (String × Json) × List Char)
  | 0, _ => none
  | fuel + 1, cs =>
    match skipWs cs with
    | c :: rest =>
      if c = quoteChar then
        match readString rest [] with
        | none => none
        | some (k, rest2) =>
          match skipWs rest2 with
          | ':' :: rest3 =>
            match readValue fuel rest3 with
            | none => none
            | some (v, rest4) =>
              match skipWs rest4 with
              | ',' :: rest5 => (readFields fuel rest5).map fun r => ((k, v) :: r.1, r.2)
              | '\x7d' :: rest5 => some ([(k, v)], rest5)
              | _ => none
          | _ => none
      else none
    | [] => none
end

/-- Reading a whole text as one JSON value. -/
def readJson (s : String) : Option Json :=
  match readValue (s.length + 1) s.data with
  | some (v, rest) =>
    match skipWs rest with
    | [] => some v
    | _ => none
  | none => none

/-- An engine for the examples: a JSON reader and printer for integers, strings, arrays and
objects. -/
def exampleRuntime : Runtime :=
  { parse := readJson, stringify := render, numberToString := fun n => toString n }

/-- Collaborators that all work: a clock standing at 1000, a store that answers, and a
notification binding that is defined and empty. -/
def calmEnv : Env :=
  { now := fun _ => 1000
    getThrows := fun _ => false
    putThrows := fun _ _ => false
    notificationApiUrl := some ""
    fetch := fun _ => FetchResult.rejected }

/-- The store without any value. -/
def emptyStore : Store := fun _ => none

/-- The request `POST /api/messages` with the body of the end-to-end scenario. -/
def alicePost : Request :=
  { method := "POST", path := "/api/messages", body := "\x7b\"name\":\"Alice\",\"content\":\"hi\"\x7d" }

/-- The parsed body of `alicePost`. -/
def aliceBody : Json :=
  Json.obj [("name", Json.str "Alice"), ("content", Json.str "hi")]

/-- A store whose `wall-messages` holds three messages, in the order they were appended, with
the timestamps 1, 3 and 2. -/
def shelfStore : Store := fun key =>
  if key = "wall-messages" then
    some "[\x7b\"id\":1,\"timestamp\":1\x7d,\x7b\"id\":3,\"timestamp\":3\x7d,\x7b\"id\":2,\"timestamp\":2\x7d]"
  else none

/-- The list `shelfStore` holds. -/
def shelfList : List Json :=
  [Json.obj [("id", Json.num 1), ("timestamp", Json.num 1)],
   Json.obj [("id", Json.num 3), ("timestamp", Json.num 3)],
   Json.obj [("id", Json.num 2), ("timestamp", Json.num 2)]]

/-- The request `POST /api/contact` with the three required fields. -/
def bobContact : Request :=
  { method := "POST", path := "/api/contact",
    body := "\x7b\"name\":\"Bob\",\"email\":\"bob@example.org\",\"message\":\"hello\"\x7d" }

/-- The parsed body of `bobContact`. -/
def bobBody : Json :=
  Json.obj [("name", Json.str "Bob"), ("email", Json.str "bob@example.org"),
    ("message", Json.str "hello")]

/-- Collaborators as in `calmEnv`, but in an environment that defines no binding
`NOTIFICATION_API_URL`. -/
def unboundEnv : Env :=
  { now := fun _ => 1000
    getThrows := fun _ => false
    putThrows := fun _ _ => false
    notificationApiUrl := none
    fetch := fun _ => FetchResult.rejected }

/-- Collaborators as in `calmEnv`, with a webhook configured that answers 200. -/
def hookEnv : Env :=
  { now := fun _ => 1000
    getThrows := fun _ => false
    putThrows := fun _ _ => false
    notificationApiUrl := some "https://hook.example/bot"
    fetch := fun _ => FetchResult.response 200 "" }

/-- Collaborators as in `calmEnv`, but every read of the store throws. -/
def brokenReadEnv : Env :=
  { now := fun _ => 1000
    getThrows := fun _ => true
    putThrows := fun _ _ => false
    notificationApiUrl := some "https://hook.example/bot"
    fetch := fun _ => FetchResult.response 200 "" }

/-- Collaborators as in `calmEnv`, but every write of the store throws. -/
def brokenWriteEnv : Env :=
  { now := fun _ => 1000
    getThrows := fun _ => false
    putThrows := fun _ _ => true
    notificationApiUrl := some "https://hook.example/bot"
    fetch := fun _ => FetchResult.response 200 "" }

/-- Collaborators as in `calmEnv`, with a clock that advances by one millisecond at each
reading. -/
def tickingEnv : Env :=
  { now := fun k => 1000 + (k : Int)
    getThrows := fun _ => false
    putThrows := fun _ _ => false
    notificationApiUrl := some ""
    fetch := fun _ => FetchResult.rejected }

/-- A store whose `wall-messages` holds one message with the timestamp 5000. -/
def laterStore : Store := fun key =>
  if key = "wall-messages" then
    some "[\x7b\"id\":5000,\"name\":\"Zoe\",\"email\":\"\",\"content\":\"first\",\"timestamp\":5000\x7d]"
  else none

/-- The request `GET /api/messages`. -/
def listMessages : Request :=
  { method := "GET", path := "/api/messages", body := "" }

/-- A store whose `contact-submissions` holds one earlier submission and whose `wall-messages`
holds one message. -/
def inboxStore : Store := fun key =>
  if key = "contact-submissions" then
    some "[\x7b\"id\":7,\"name\":\"Ann\",\"email\":\"ann@example.org\",\"message\":\"hey\",\"timestamp\":7\x7d]"
  else if key = "wall-messages" then
    some "[\x7b\"id\":5,\"name\":\"Zoe\",\"email\":\"\",\"content\":\"first\",\"timestamp\":5\x7d]"
  else none

/-! ## Properties of the sort -/

theorem perm_insertSorted (cmp : Json → Json → Int) (a : Json) (l : List Json) :
    (insertSorted cmp a l).Perm (a :: l) := by
  induction l with
  | nil => simp [insertSorted]
  | cons b rest ih =>
    unfold insertSorted
    split
    · exact List.Perm.refl _
    · exact (ih.cons b).trans (List.Perm.swap a b rest)

theorem perm_arraySort (cmp : Json → Json → Int) (l : List Json) :
    (arraySort cmp l).Perm l := by
  induction l with
  | nil => simp [arraySort]
  | cons a rest ih =>
    unfold arraySort
    exact (perm_insertSorted cmp a _).trans (ih.cons a)

theorem compareFn_of_timestamps {a b : Json} {ta tb : Int}
    (ha : timestampOf a = some ta) (hb : timestampOf b = some tb) :
    compareFn a b = tb - ta := by
  simp [compareFn, ha, hb]

theorem pairwise_insertSorted (a : Json) (l : List Json)
    (ha : (timestampOf a).isSome) (hl : ∀ m ∈ l, (timestampOf m).isSome)
    (hs : l.Pairwise mayFollow) : (insertSorted compareFn a l).Pairwise mayFollow := by
  obtain ⟨ta, hta⟩ := Option.isSome_iff_exists.mp ha
  induction l with
  | nil => simp [insertSorted]
  | cons b rest ih =>
    obtain ⟨tb, htb⟩ := Option.isSome_iff_exists.mp (hl b (List.mem_cons_self _ _))
    have hrest : ∀ m ∈ rest, (timestampOf m).isSome := fun m hm => hl m (List.mem_cons_of_mem _ hm)
    rw [List.pairwise_cons] at hs
    unfold insertSorted
    rw [compareFn_of_timestamps hta htb]
    split
    · rename_i hle
      refine List.pairwise_cons.mpr ⟨?_, List.pairwise_cons.mpr hs⟩
      intro x hx
      rcases List.mem_cons.mp hx with rfl | hx
      · exact ⟨ta, tb, hta, htb, by omega⟩
      · obtain ⟨tb', tx, h1, h2, h3⟩ := hs.1 x hx
        rw [htb] at h1
        cases h1
        exact ⟨ta, tx, hta, h2, by omega⟩
    · rename_i hgt
      refine List.pairwise_cons.mpr ⟨?_, ih hrest hs.2⟩
      intro x hx
      rcases List.mem_cons.mp ((perm_insertSorted compareFn a rest).mem_iff.mp hx) with rfl | hx
      · exact ⟨tb, ta, htb, hta, by omega⟩
      · exact hs.1 x hx

theorem pairwise_arraySort (l : List Json) (hl : ∀ m ∈ l, (timestampOf m).isSome) :
    (arraySort compareFn l).Pairwise mayFollow := by
  induction l with
  | nil => simp [arraySort]
  | cons a rest ih =>
    unfold arraySort
    have hrest : ∀ m ∈ rest, (timestampOf m).isSome := fun m hm => hl m (List.mem_cons_of_mem _ hm)
    refine pairwise_insertSorted a _ (hl a (List.mem_cons_self _ _)) ?_ (ih hrest)
    intro m hm
    exact hrest m ((perm_arraySort compareFn rest).mem_iff.mp hm)

/-! ## Preflight and unmatched routes -/

/-- C10: a request with method `OPTIONS` returns status 200 with the `null` body and
`corsHeaders`, which carry `Access-Control-Allow-Origin: *`, `Access-Control-Allow-Methods:
GET, POST, OPTIONS` and `Access-Control-Allow-Headers: Content-Type`, for every path and store;
the store is unchanged and the request performs no effect at all (no store call, no outbound
request). -/
theorem options_preflight (rt : Runtime) (env : Env) (kv : Store) (request : Request)
    (hm : request.method = "OPTIONS") :
    handleRequest rt env kv request =
        some { response := { status := 200, headers := corsHeaders, body := none },
               kv := kv, trace := [] } ∧
      header "Access-Control-Allow-Origin" corsHeaders = some "*" ∧
      header "Access-Control-Allow-Methods" corsHeaders = some "GET, POST, OPTIONS" ∧
      header "Access-Control-Allow-Headers" corsHeaders = some "Content-Type" := by
  refine ⟨by simp [handleRequest, hm], by decide, by decide, by decide⟩

theorem options_preflight_witness :
    handleRequest exampleRuntime calmEnv emptyStore
        { method := "OPTIONS", path := "/api/unknown", body := "" } =
        some { response := { status := 200, headers := corsHeaders, body := none },
               kv := emptyStore, trace := [] } ∧
      header "Access-Control-Allow-Origin" corsHeaders = some "*" ∧
      header "Access-Control-Allow-Methods" corsHeaders = some "GET, POST, OPTIONS" ∧
      header "Access-Control-Allow-Headers" corsHeaders = some "Content-Type" :=
  options_preflight exampleRuntime calmEnv emptyStore
    { method := "OPTIONS", path := "/api/unknown", body := "" } rfl

/-- C9: a request whose method is not `OPTIONS` and whose method and path are none of
`GET /api/hitokoto`, `GET /api/messages`, `POST /api/messages`, `POST /api/contact` returns
status 404 with the body `{error: "未找到请求的资源"}`, leaves the store unchanged and performs
no effect (no store call, no notification). -/
theorem unmatched_route_not_found (rt : Runtime) (env : Env) (kv : Store) (request : Request)
    (hopt : request.method ≠ "OPTIONS")
    (h1 : ¬(request.method = "GET" ∧ request.path = "/api/hitokoto"))
    (h2 : ¬(request.method = "GET" ∧ request.path = "/api/messages"))
    (h3 : ¬(request.method = "POST" ∧ request.path = "/api/messages"))
    (h4 : ¬(request.method = "POST" ∧ request.path = "/api/contact")) :
    handleRequest rt env kv request =
      some { response := { status := 404, headers := corsHeaders,
                           body := some (rt.stringify (errorObj "未找到请求的资源")) },
             kv := kv, trace := [] } := by
  have h1' : ¬(request.path = "/api/hitokoto" ∧ request.method = "GET") := fun h => h1 ⟨h.2, h.1⟩
  have h2' : ¬(request.path = "/api/messages" ∧ request.method = "GET") := fun h => h2 ⟨h.2, h.1⟩
  have h3' : ¬(request.path = "/api/messages" ∧ request.method = "POST") := fun h => h3 ⟨h.2, h.1⟩
  have h4' : ¬(request.path = "/api/contact" ∧ request.method = "POST") := fun h => h4 ⟨h.2, h.1⟩
  unfold handleRequest
  rw [if_neg hopt, if_neg h1', if_neg h2', if_neg h3', if_neg h4']
  rfl

theorem unmatched_route_not_found_witness :
    handleRequest exampleRuntime calmEnv emptyStore
        { method := "DELETE", path := "/api/messages", body := "" } =
      some { response := { status := 404, headers := corsHeaders,
                           body := some (exampleRuntime.stringify (errorObj "未找到请求的资源")) },
             kv := emptyStore, trace := [] } ∧
    handleRequest exampleRuntime calmEnv emptyStore
        { method := "POST", path := "/api/hitokoto", body := "" } =
      some { response := { status := 404, headers := corsHeaders,
                           body := some (exampleRuntime.stringify (errorObj "未找到请求的资源")) },
             kv := emptyStore, trace := [] } ∧
    handleRequest exampleRuntime calmEnv emptyStore
        { method := "GET", path := "/api/contact", body := "" } =
      some { response := { status := 404, headers := corsHeaders,
                           body := some (exampleRuntime.stringify (errorObj "未找到请求的资源")) },
             kv := emptyStore, trace := [] } ∧
    handleRequest exampleRuntime calmEnv emptyStore
        { method := "GET", path := "/api/unknown", body := "" } =
      some { response := { status := 404, headers := corsHeaders,
                           body := some (exampleRuntime.stringify (errorObj "未找到请求的资源")) },
             kv := emptyStore, trace := [] } :=
  ⟨unmatched_route_not_found exampleRuntime calmEnv emptyStore
      { method := "DELETE", path := "/api/messages", body := "" }
      (by decide) (by decide) (by decide) (by decide) (by decide),
   unmatched_route_not_found exampleRuntime calmEnv emptyStore
      { method := "POST", path := "/api/hitokoto", body := "" }
      (by decide) (by decide) (by decide) (by decide) (by decide),
   unmatched_route_not_found exampleRuntime calmEnv emptyStore
      { method := "GET", path := "/api/contact", body := "" }
      (by decide) (by decide) (by decide) (by decide) (by decide),
   unmatched_route_not_found exampleRuntime calmEnv emptyStore
      { method := "GET", path := "/api/unknown", body := "" }
      (by decide) (by decide) (by decide) (by decide) (by decide)⟩

/-! ## Validation -/

theorem postMessage_invalid (rt : Runtime) (env : Env) (kv : Store) (request : Request)
    (d : Json) (hbody : rt.parse request.body = some d) (hd : d ≠ Json.null)
    (h : truthy (d.prop "name") = false ∨ truthy (d.prop "content") = false) :
    postMessage rt env kv request =
      ⟨jsonResponse rt 400 (errorObj "缺少必填字段"), kv, []⟩ := by
  unfold postMessage
  rw [hbody]
  cases d with
  | null => exact absurd rfl hd
  | obj fields =>
    simp only []
    split
    · rename_i name content hn hc
      rw [hn, hc] at h
      rcases h with h | h <;> simp [h]
    · rfl
  | _ => rfl

theorem postContact_invalid (rt : Runtime) (env : Env) (kv : Store) (request : Request)
    (d : Json) (hbody : rt.parse request.body = some d) (hd : d ≠ Json.null)
    (h : truthy (d.prop "name") = false ∨ truthy (d.prop "email") = false ∨
      truthy (d.prop "message") = false) :
    postContact rt env kv request =
      ⟨jsonResponse rt 400 (errorObj "缺少必填字段"), kv, []⟩ := by
  unfold postContact
  rw [hbody]
  cases d with
  | null => exact absurd rfl hd
  | obj fields =>
    simp only []
    split
    · rename_i name email message hn he hmsg
      rw [hn, he, hmsg] at h
      rcases h with h | h | h <;> simp [h]
    · rfl
  | _ => rfl

theorem postMessage_null_body (rt : Runtime) (env : Env) (kv : Store) (request : Request)
    (hbody : rt.parse request.body = some Json.null) :
    postMessage rt env kv request =
      ⟨jsonResponse rt 500 (errorObj "添加留言失败"), kv, []⟩ := by
  unfold postMessage
  rw [hbody]

theorem postContact_null_body (rt : Runtime) (env : Env) (kv : Store) (request : Request)
    (hbody : rt.parse request.body = some Json.null) :
    postContact rt env kv request =
      ⟨jsonResponse rt 500 (errorObj "提交联系表单失败"), kv, []⟩ := by
  unfold postContact
  rw [hbody]

theorem handleRequest_post_messages (rt : Runtime) (env : Env) (kv : Store) (request : Request)
    (hm : request.method = "POST") (hp : request.path = "/api/messages") :
    handleRequest rt env kv request = some (postMessage rt env kv request) := by
  simp [handleRequest, hm, hp]

theorem handleRequest_post_contact (rt : Runtime) (env : Env) (kv : Store) (request : Request)
    (hm : request.method = "POST") (hp : request.path = "/api/contact") :
    handleRequest rt env kv request = some (postContact rt env kv request) := by
  simp [handleRequest, hm, hp]

/-- C3, as stated, fails: the body `null` has no `name`, `content`, `email` or `message`, yet
`POST /api/messages` and `POST /api/contact` answer it with status 500 and the failure message of
the route, not with 400: the property read on `null` throws. Store and effects are untouched. -/
theorem null_body_answers_500 :
    handleRequest exampleRuntime calmEnv shelfStore
        { method := "POST", path := "/api/messages", body := "null" } =
      some { response := { status := 500, headers := corsHeaders,
                           body := some "\x7b\"error\":\"添加留言失败\"\x7d" },
             kv := shelfStore, trace := [] } ∧
    handleRequest exampleRuntime calmEnv shelfStore
        { method := "POST", path := "/api/contact", body := "null" } =
      some { response := { status := 500, headers := corsHeaders,
                           body := some "\x7b\"error\":\"提交联系表单失败\"\x7d" },
             kv := shelfStore, trace := [] } ∧
    exampleRuntime.parse "null" = some Json.null ∧
    truthy (Json.null.prop "name") = false ∧ truthy (Json.null.prop "content") = false :=
  ⟨rfl, rfl, rfl, rfl, rfl⟩

/-- C3, amended: validation precedes any side effect. A `POST /api/messages` whose body is a
JSON value with a falsy (missing, empty) `name` or `content`, and a `POST /api/contact` whose
body has a falsy `name`, `email` or `message`, leaves the store unchanged and performs no effect
(no store read or write, no notification); and when the body is not `null` the response is
status 400 with the body `{error: "缺少必填字段"}`. -/
theorem validation_precedes_effects (rt : Runtime) (env : Env) (kv : Store) (request : Request)
    (d : Json) (hm : request.method = "POST") (hbody : rt.parse request.body = some d) :
    (request.path = "/api/messages" →
      truthy (d.prop "name") = false ∨ truthy (d.prop "content") = false →
      ∃ out, handleRequest rt env kv request = some out ∧ out.kv = kv ∧ out.trace = [] ∧
        (d ≠ Json.null →
          out.response = { status := 400, headers := corsHeaders,
                           body := some (rt.stringify (errorObj "缺少必填字段")) })) ∧
    (request.path = "/api/contact" →
      truthy (d.prop "name") = false ∨ truthy (d.prop "email") = false ∨
        truthy (d.prop "message") = false →
      ∃ out, handleRequest rt env kv request = some out ∧ out.kv = kv ∧ out.trace = [] ∧
        (d ≠ Json.null →
          out.response = { status := 400, headers := corsHeaders,
                           body := some (rt.stringify (errorObj "缺少必填字段")) })) := by
  constructor
  · intro hp h
    refine ⟨postMessage rt env kv request,
      handleRequest_post_messages rt env kv request hm hp, ?_⟩
    by_cases hd : d = Json.null
    · rw [postMessage_null_body rt env kv request (hd ▸ hbody)]
      exact ⟨rfl, rfl, fun hne => absurd hd hne⟩
    · rw [postMessage_invalid rt env kv request d hbody hd h]
      exact ⟨rfl, rfl, fun _ => rfl⟩
  · intro hp h
    refine ⟨postContact rt env kv request,
      handleRequest_post_contact rt env kv request hm hp, ?_⟩
    by_cases hd : d = Json.null
    · rw [postContact_null_body rt env kv request (hd ▸ hbody)]
      exact ⟨rfl, rfl, fun hne => absurd hd hne⟩
    · rw [postContact_invalid rt env kv request d hbody hd h]
      exact ⟨rfl, rfl, fun _ => rfl⟩

theorem validation_precedes_effects_witness :
    (∃ out, handleRequest exampleRuntime calmEnv shelfStore
        { method := "POST", path := "/api/messages",
          body := "\x7b\"name\":\"\",\"content\":\"x\"\x7d" } = some out ∧
      out.kv = shelfStore ∧ out.trace = [] ∧
      out.response = { status := 400, headers := corsHeaders,
                       body := some "\x7b\"error\":\"缺少必填字段\"\x7d" }) ∧
    (∃ out, handleRequest exampleRuntime calmEnv shelfStore
        { method := "POST", path := "/api/messages",
          body := "\x7b\"name\":\"Alice\"\x7d" } = some out ∧
      out.kv = shelfStore ∧ out.trace = [] ∧
      out.response = { status := 400, headers := corsHeaders,
                       body := some "\x7b\"error\":\"缺少必填字段\"\x7d" }) ∧
    (∃ out, handleRequest exampleRuntime calmEnv shelfStore
        { method := "POST", path := "/api/contact",
          body := "\x7b\"name\":\"Bob\",\"message\":\"hello\"\x7d" } = some out ∧
      out.kv = shelfStore ∧ out.trace = [] ∧
      out.response = { status := 400, headers := corsHeaders,
                       body := some "\x7b\"error\":\"缺少必填字段\"\x7d" }) ∧
    (∃ out, handleRequest exampleRuntime calmEnv shelfStore
        { method := "POST", path := "/api/messages", body := "null" } = some out ∧
      out.kv = shelfStore ∧ out.trace = []) := by
  refine ⟨?_, ?_, ?_, ?_⟩
  · obtain ⟨out, h1, h2, h3, h4⟩ :=
      (validation_precedes_effects exampleRuntime calmEnv shelfStore
        { method := "POST", path := "/api/messages",
          body := "\x7b\"name\":\"\",\"content\":\"x\"\x7d" }
        (Json.obj [("name", Json.str ""), ("content", Json.str "x")]) rfl rfl).1 rfl
        (Or.inl rfl)
    exact ⟨out, h1, h2, h3, h4 (fun h => Json.noConfusion h)⟩
  · obtain ⟨out, h1, h2, h3, h4⟩ :=
      (validation_precedes_effects exampleRuntime calmEnv shelfStore
        { method := "POST", path := "/api/messages", body := "\x7b\"name\":\"Alice\"\x7d" }
        (Json.obj [("name", Json.str "Alice")]) rfl rfl).1 rfl (Or.inr rfl)
    exact ⟨out, h1, h2, h3, h4 (fun h => Json.noConfusion h)⟩
  · obtain ⟨out, h1, h2, h3, h4⟩ :=
      (validation_precedes_effects exampleRuntime calmEnv shelfStore
        { method := "POST", path := "/api/contact",
          body := "\x7b\"name\":\"Bob\",\"message\":\"hello\"\x7d" }
        (Json.obj [("name", Json.str "Bob"), ("message", Json.str "hello")]) rfl rfl).2 rfl
        (Or.inr (Or.inl rfl))
    exact ⟨out, h1, h2, h3, h4 (fun h => Json.noConfusion h)⟩
  · obtain ⟨out, h1, h2, h3, _⟩ :=
      (validation_precedes_effects exampleRuntime calmEnv shelfStore
        { method := "POST", path := "/api/messages", body := "null" }
        Json.null rfl rfl).1 rfl (Or.inl rfl)
    exact ⟨out, h1, h2, h3⟩

/-! ## The notification -/

theorem sendNotification_bound (rt : Runtime) (env : Env) (type : String) (data : Json)
    (h : env.notificationApiUrl.isSome) :
    ∃ events, sendNotification rt env type data = some events := by
  obtain ⟨url, hurl⟩ := Option.isSome_iff_exists.mp h
  unfold sendNotification
  rw [hurl]
  simp only []
  split
  · exact ⟨_, rfl⟩
  · split
    · exact ⟨_, rfl⟩
    · exact ⟨_, rfl⟩
    · split
      · exact ⟨_, rfl⟩
      · split <;> exact ⟨_, rfl⟩

theorem sendNotification_unbound (rt : Runtime) (env : Env) (type : String) (data : Json)
    (h : env.notificationApiUrl = none) :
    sendNotification rt env type data = none := by
  unfold sendNotification
  rw [h]

theorem sendNotification_no_store_call (rt : Runtime) (env : Env) (type : String) (data : Json)
    (events : List Event) (h : sendNotification rt env type data = some events) :
    ∀ e ∈ events, e.isStoreFailure = false ∧ e.isPut = false ∧ e.isGet = false := by
  unfold sendNotification at h
  split at h
  · exact absurd h (by simp)
  · split at h
    · cases h; simp [Event.isStoreFailure, Event.isPut, Event.isGet]
    · split at h
      · cases h; simp
      · cases h; simp [Event.isStoreFailure, Event.isPut, Event.isGet]
      · split at h
        · cases h; simp [Event.isStoreFailure, Event.isPut, Event.isGet]
        · split at h <;> cases h <;> simp [Event.isStoreFailure, Event.isPut, Event.isGet]

/-! ## The successful writes -/

theorem holdsList_parseOrEmpty (rt : Runtime) (kv : Store) (key : String) (L : List Json)
    (h : holdsList rt kv key L) : parseOrEmpty rt (kv key) = some (Json.arr L) := by
  rcases h with ⟨hk, hL⟩ | ⟨text, hne, hk, hparse⟩
  · rw [hk, hL]; rfl
  · rw [hk]; simp [parseOrEmpty, hne, hparse]

theorem prop_of_truthy (d : Json) (key : String) (h : truthy (d.prop key) = true) :
    ∃ v, d.prop key = some v ∧ truthy (some v) = true := by
  cases hv : d.prop key with
  | none => rw [hv] at h; exact absurd h (by simp [truthy])
  | some v => rw [hv] at h; exact ⟨v, rfl, h⟩

theorem postMessage_valid (rt : Runtime) (env : Env) (kv : Store) (request : Request)
    (d name content : Json) (L : List Json)
    (hbody : rt.parse request.body = some d)
    (hn : d.prop "name" = some name) (hc : d.prop "content" = some content)
    (htn : truthy (some name) = true) (htc : truthy (some content) = true)
    (hget : env.getThrows "wall-messages" = false)
    (hstore : parseOrEmpty rt (kv "wall-messages") = some (Json.arr L))
    (hput : env.putThrows "wall-messages"
      (rt.stringify (Json.arr (L ++ [newMessage env name (d.prop "email") content]))) = false) :
    postMessage rt env kv request =
      match sendNotification rt env "message" (newMessage env name (d.prop "email") content) with
      | none =>
        ⟨jsonResponse rt 500 (errorObj "添加留言失败"),
          kv.put "wall-messages"
            (rt.stringify (Json.arr (L ++ [newMessage env name (d.prop "email") content]))),
          [Event.kvGet "wall-messages" false,
            Event.kvPut "wall-messages"
              (rt.stringify (Json.arr (L ++ [newMessage env name (d.prop "email") content])))
              false]⟩
      | some events =>
        ⟨jsonResponse rt 200 (newMessage env name (d.prop "email") content),
          kv.put "wall-messages"
            (rt.stringify (Json.arr (L ++ [newMessage env name (d.prop "email") content]))),
          [Event.kvGet "wall-messages" false,
            Event.kvPut "wall-messages"
              (rt.stringify (Json.arr (L ++ [newMessage env name (d.prop "email") content])))
              false] ++ events⟩ := by
  unfold postMessage
  rw [hbody]
  cases d with
  | obj fields =>
    simp only [] at hn hc ⊢
    simp only [hn, hc, htn, htc, hget, hstore, hput]
    simp
  | _ => simp [Json.prop] at hn

theorem postContact_valid (rt : Runtime) (env : Env) (kv : Store) (request : Request)
    (d name email message : Json) (C : List Json)
    (hbody : rt.parse request.body = some d)
    (hn : d.prop "name" = some name) (he : d.prop "email" = some email)
    (hmsg : d.prop "message" = some message)
    (htn : truthy (some name) = true) (hte : truthy (some email) = true)
    (htm : truthy (some message) = true)
    (hget : env.getThrows "contact-submissions" = false)
    (hstore : parseOrEmpty rt (kv "contact-submissions") = some (Json.arr C))
    (hput : env.putThrows "contact-submissions"
      (rt.stringify (Json.arr (C ++ [newContact env name email message]))) = false) :
    postContact rt env kv request =
      match sendNotification rt env "contact" (newContact env name email message) with
      | none =>
        ⟨jsonResponse rt 500 (errorObj "提交联系表单失败"),
          kv.put "contact-submissions"
            (rt.stringify (Json.arr (C ++ [newContact env name email message]))),
          [Event.kvGet "contact-submissions" false,
            Event.kvPut "contact-submissions"
              (rt.stringify (Json.arr (C ++ [newContact env name email message]))) false]⟩
      | some events =>
        ⟨jsonResponse rt 200 (Json.obj [("success", Json.bool true)]),
          kv.put "contact-submissions"
            (rt.stringify (Json.arr (C ++ [newContact env name email message]))),
          [Event.kvGet "contact-submissions" false,
            Event.kvPut "contact-submissions"
              (rt.stringify (Json.arr (C ++ [newContact env name email message]))) false]
            ++ events⟩ := by
  unfold postContact
  rw [hbody]
  cases d with
  | obj fields =>
    simp only [] at hn he hmsg ⊢
    simp only [hn, he, hmsg, htn, hte, htm, hget, hstore, hput]
    simp
  | _ => simp [Json.prop] at hn

theorem orElse_empty (v : Option Json) (h : v = none ∨ v = some (Json.str "")) :
    orElse v (Json.str "") = Json.str "" := by
  rcases h with h | h <;> rw [h] <;> simp [orElse, truthy]

theorem orElse_truthy (v : Option Json) (e d : Json) (h : v = some e)
    (ht : truthy (some e) = true) : orElse v d = e := by
  rw [h]; simp [orElse, ht]

/-- With the notification binding defined: for a store in which `wall-messages` is absent or
holds the JSON list `L`, every clock, and a `POST /api/messages` whose body has truthy
(non-empty) `name` and `content`, with the store calls succeeding, the response has status 200
and its body
is the new Message `{id, name, email, content, timestamp}` with the name and content of the body
and the email of the body, or the empty string when the email is absent or empty; the store
afterwards holds under `wall-messages` the list `L` followed by that Message, and every other
key is unchanged. -/
theorem post_message_appends (rt : Runtime) (env : Env) (kv : Store) (request : Request)
    (d : Json) (L : List Json)
    (hm : request.method = "POST") (hp : request.path = "/api/messages")
    (hbody : rt.parse request.body = some d)
    (hname : truthy (d.prop "name") = true) (hcontent : truthy (d.prop "content") = true)
    (hstore : holdsList rt kv "wall-messages" L)
    (hget : env.getThrows "wall-messages" = false)
    (hput : ∀ value, env.putThrows "wall-messages" value = false)
    (hurl : env.notificationApiUrl.isSome) :
    ∃ name content created out,
      d.prop "name" = some name ∧ d.prop "content" = some content ∧
      created = Json.obj [("id", Json.num (env.now 0)), ("name", name),
        ("email", orElse (d.prop "email") (Json.str "")), ("content", content),
        ("timestamp", Json.num (env.now 1))] ∧
      (d.prop "email" = none ∨ d.prop "email" = some (Json.str "") →
        orElse (d.prop "email") (Json.str "") = Json.str "") ∧
      (∀ e, d.prop "email" = some e → truthy (some e) = true →
        orElse (d.prop "email") (Json.str "") = e) ∧
      handleRequest rt env kv request = some out ∧
      out.response.status = 200 ∧
      out.response.body = some (rt.stringify created) ∧
      out.kv "wall-messages" = some (rt.stringify (Json.arr (L ++ [created]))) ∧
      ∀ key, key ≠ "wall-messages" → out.kv key = kv key := by
  obtain ⟨name, hn, htn⟩ := prop_of_truthy d "name" hname
  obtain ⟨content, hc, htc⟩ := prop_of_truthy d "content" hcontent
  obtain ⟨events, hev⟩ := sendNotification_bound rt env "message"
    (newMessage env name (d.prop "email") content) hurl
  have hpost := postMessage_valid rt env kv request d name content L hbody hn hc htn htc hget
    (holdsList_parseOrEmpty rt kv "wall-messages" L hstore) (hput _)
  rw [hev] at hpost
  simp only [] at hpost
  refine ⟨name, content, newMessage env name (d.prop "email") content,
    postMessage rt env kv request, hn, hc, rfl,
    orElse_empty _, fun e he ht => orElse_truthy _ e _ he ht,
    handleRequest_post_messages rt env kv request hm hp, ?_, ?_, ?_, ?_⟩
  · rw [hpost]; rfl
  · rw [hpost]; rfl
  · rw [hpost]; simp [Store.put]
  · intro key hkey
    rw [hpost]; simp [Store.put, hkey]

theorem post_message_appends_witness :
    ∃ out, handleRequest exampleRuntime calmEnv emptyStore alicePost = some out ∧
      out.response.status = 200 ∧
      out.response.body = some
        "\x7b\"id\":1000,\"name\":\"Alice\",\"email\":\"\",\"content\":\"hi\",\"timestamp\":1000\x7d" ∧
      out.kv "wall-messages" = some
        "[\x7b\"id\":1000,\"name\":\"Alice\",\"email\":\"\",\"content\":\"hi\",\"timestamp\":1000\x7d]" := by
  obtain ⟨name, content, created, out, hn, hc, hcr, _, _, hout, hs, hb, hkv, _⟩ :=
    post_message_appends exampleRuntime calmEnv emptyStore alicePost aliceBody []
      rfl rfl rfl rfl rfl (Or.inl ⟨rfl, rfl⟩) rfl (fun _ => rfl) rfl
  have hn' : name = Json.str "Alice" := (Option.some.inj hn).symm
  have hc' : content = Json.str "hi" := (Option.some.inj hc).symm
  subst hn' hc'
  subst hcr
  exact ⟨out, hout, hs, hb, hkv⟩

/-! ## Reading the messages -/

theorem handleRequest_get_messages (rt : Runtime) (env : Env) (kv : Store) (request : Request)
    (hm : request.method = "GET") (hp : request.path = "/api/messages") :
    handleRequest rt env kv request = getMessages rt env kv := by
  simp [handleRequest, hm, hp]

theorem getMessages_list (rt : Runtime) (env : Env) (kv : Store) (L : List Json)
    (hget : env.getThrows "wall-messages" = false)
    (hstore : parseOrEmpty rt (kv "wall-messages") = some (Json.arr L))
    (hts : ∀ m ∈ L, (timestampOf m).isSome) :
    getMessages rt env kv =
      some ⟨jsonResponse rt 200 (Json.arr (arraySort compareFn L)), kv,
        [Event.kvGet "wall-messages" false]⟩ := by
  unfold getMessages
  have hall : L.all (fun m => (timestampOf m).isSome) = true := by
    rw [List.all_eq_true]; exact hts
  simp only [hget, hstore, hall]
  simp

theorem adjacent_of_pairwise (l : List Json) (h : l.Pairwise mayFollow) (i : Nat) (a b : Json)
    (ha : l[i]? = some a) (hb : l[i + 1]? = some b) : mayFollow a b := by
  obtain ⟨hi, rfl⟩ := List.getElem?_eq_some.mp ha
  obtain ⟨hj, rfl⟩ := List.getElem?_eq_some.mp hb
  exact List.pairwise_iff_getElem.mp h i (i + 1) hi hj (Nat.lt_succ_self i)

/-- C2: for a store in which `wall-messages` is absent or holds a JSON list `L` of objects with
integer timestamps, and a store read that succeeds, `GET /api/messages` returns status 200 with a
body that is the text of a rearrangement of `L` (a permutation: the same elements with the same
multiplicities; the empty list when the key is absent) in which the timestamp of each element is
at least the timestamp of the next one, and the store is left unchanged. -/
theorem get_messages_sorted (rt : Runtime) (env : Env) (kv : Store) (request : Request)
    (L : List Json)
    (hm : request.method = "GET") (hp : request.path = "/api/messages")
    (hstore : holdsList rt kv "wall-messages" L)
    (hts : ∀ m ∈ L, ∃ t, timestampOf m = some t)
    (hget : env.getThrows "wall-messages" = false) :
    ∃ sorted out,
      handleRequest rt env kv request = some out ∧
      out.response.status = 200 ∧
      out.response.body = some (rt.stringify (Json.arr sorted)) ∧
      sorted.Perm L ∧
      (kv "wall-messages" = none → sorted = []) ∧
      (∀ i a b, sorted[i]? = some a → sorted[i + 1]? = some b →
        ∃ ta tb, timestampOf a = some ta ∧ timestampOf b = some tb ∧ ta ≥ tb) ∧
      out.kv = kv := by
  have hts' : ∀ m ∈ L, (timestampOf m).isSome := fun m hmem =>
    Option.isSome_iff_exists.mpr (hts m hmem)
  refine ⟨arraySort compareFn L,
    ⟨jsonResponse rt 200 (Json.arr (arraySort compareFn L)), kv,
      [Event.kvGet "wall-messages" false]⟩,
    ?_, rfl, rfl, perm_arraySort compareFn L, ?_, ?_, rfl⟩
  · rw [handleRequest_get_messages rt env kv request hm hp]
    exact getMessages_list rt env kv L hget
      (holdsList_parseOrEmpty rt kv "wall-messages" L hstore) hts'
  · intro hnone
    rcases hstore with ⟨_, hL⟩ | ⟨text, _, hk, _⟩
    · rw [hL]; rfl
    · rw [hnone] at hk; exact absurd hk (by simp)
  · intro i a b ha hb
    exact adjacent_of_pairwise _ (pairwise_arraySort L hts') i a b ha hb

theorem get_messages_sorted_witness :
    ∃ sorted out,
      handleRequest exampleRuntime calmEnv shelfStore
        { method := "GET", path := "/api/messages", body := "" } = some out ∧
      out.response.status = 200 ∧
      out.response.body = some (exampleRuntime.stringify (Json.arr sorted)) ∧
      sorted.Perm shelfList ∧
      (shelfStore "wall-messages" = none → sorted = []) ∧
      (∀ i a b, sorted[i]? = some a → sorted[i + 1]? = some b →
        ∃ ta tb, timestampOf a = some ta ∧ timestampOf b = some tb ∧ ta ≥ tb) ∧
      out.kv = shelfStore :=
  get_messages_sorted exampleRuntime calmEnv shelfStore
    { method := "GET", path := "/api/messages", body := "" } shelfList rfl rfl
    (Or.inr ⟨_, by decide, rfl, rfl⟩)
    (by
      intro m hmem
      simp only [shelfList, List.mem_cons, List.mem_singleton, List.not_mem_nil, or_false] at hmem
      rcases hmem with rfl | rfl | rfl
      · exact ⟨1, rfl⟩
      · exact ⟨3, rfl⟩
      · exact ⟨2, rfl⟩)
    rfl

/-! ## The contact form -/

theorem get_ignores_contacts (rt : Runtime) (env : Env) (kv1 kv2 : Store) (request : Request)
    (hm : request.method = "GET")
    (hagree : ∀ key, key ≠ "contact-submissions" → kv1 key = kv2 key) :
    (handleRequest rt env kv1 request).map (fun out => out.response) =
      (handleRequest rt env kv2 request).map (fun out => out.response) := by
  have hwall : kv1 "wall-messages" = kv2 "wall-messages" := hagree _ (by decide)
  unfold handleRequest
  simp only [hm]
  rw [if_neg (by decide)]
  by_cases h1 : request.path = "/api/hitokoto"
  · simp only [h1, true_and, and_true, if_true]
    unfold getHitokoto
    simp only []
    split
    · rfl
    · split <;> rfl
  · by_cases h2 : request.path = "/api/messages"
    · simp only [h2, true_and, and_true, if_true]
      rw [if_neg (by decide)]
      unfold getMessages
      rw [hwall]
      split
      · rfl
      · split
        · rfl
        · split <;> rfl
        · rfl
    · simp [h1, h2]

/-- With the notification binding defined: for a store in which `contact-submissions` is absent
or holds the JSON list `C`, and a `POST /api/contact` whose body has truthy (non-empty) `name`,
`email` and `message`, with the store calls succeeding, the response has status 200 and the
body `{success: true}`; the store afterwards holds under `contact-submissions` the list `C`
followed by the new ContactSubmission `{id, name, email, message, timestamp}`; every other key,
`wall-messages` among them, is unchanged; and the response to a GET request does not depend on
the value stored under `contact-submissions`. -/
theorem post_contact_appends_unexposed (rt : Runtime) (env : Env) (kv : Store)
    (request : Request) (d : Json) (C : List Json)
    (hm : request.method = "POST") (hp : request.path = "/api/contact")
    (hbody : rt.parse request.body = some d)
    (hname : truthy (d.prop "name") = true) (hemail : truthy (d.prop "email") = true)
    (hmessage : truthy (d.prop "message") = true)
    (hstore : holdsList rt kv "contact-submissions" C)
    (hget : env.getThrows "contact-submissions" = false)
    (hput : ∀ value, env.putThrows "contact-submissions" value = false)
    (hurl : env.notificationApiUrl.isSome) :
    ∃ name email message created out,
      d.prop "name" = some name ∧ d.prop "email" = some email ∧
      d.prop "message" = some message ∧
      created = Json.obj [("id", Json.num (env.now 0)), ("name", name), ("email", email),
        ("message", message), ("timestamp", Json.num (env.now 1))] ∧
      handleRequest rt env kv request = some out ∧
      out.response.status = 200 ∧
      out.response.body = some (rt.stringify (Json.obj [("success", Json.bool true)])) ∧
      out.kv "contact-submissions" = some (rt.stringify (Json.arr (C ++ [created]))) ∧
      (∀ key, key ≠ "contact-submissions" → out.kv key = kv key) ∧
      out.kv "wall-messages" = kv "wall-messages" ∧
      ∀ (env2 : Env) (kv1 kv2 : Store) (get : Request), get.method = "GET" →
        (∀ key, key ≠ "contact-submissions" → kv1 key = kv2 key) →
        (handleRequest rt env2 kv1 get).map (fun o => o.response) =
          (handleRequest rt env2 kv2 get).map (fun o => o.response) := by
  obtain ⟨name, hn, htn⟩ := prop_of_truthy d "name" hname
  obtain ⟨email, he, hte⟩ := prop_of_truthy d "email" hemail
  obtain ⟨message, hmsg, htm⟩ := prop_of_truthy d "message" hmessage
  obtain ⟨events, hev⟩ := sendNotification_bound rt env "contact"
    (newContact env name email message) hurl
  have hpost := postContact_valid rt env kv request d name email message C hbody hn he hmsg
    htn hte htm hget (holdsList_parseOrEmpty rt kv "contact-submissions" C hstore) (hput _)
  rw [hev] at hpost
  simp only [] at hpost
  refine ⟨name, email, message, newContact env name email message,
    postContact rt env kv request, hn, he, hmsg, rfl,
    handleRequest_post_contact rt env kv request hm hp, ?_, ?_, ?_, ?_, ?_,
    fun env2 kv1 kv2 get hg hagree => get_ignores_contacts rt env2 kv1 kv2 get hg hagree⟩
  · rw [hpost]; rfl
  · rw [hpost]; rfl
  · rw [hpost]; simp [Store.put]
  · intro key hkey
    rw [hpost]; simp [Store.put, hkey]
  · rw [hpost]; simp [Store.put]

theorem post_contact_appends_unexposed_witness :
    ∃ out, handleRequest exampleRuntime calmEnv emptyStore bobContact = some out ∧
      out.response.status = 200 ∧
      out.response.body = some "\x7b\"success\":true\x7d" ∧
      out.kv "contact-submissions" = some
        "[\x7b\"id\":1000,\"name\":\"Bob\",\"email\":\"bob@example.org\",\"message\":\"hello\",\"timestamp\":1000\x7d]" ∧
      out.kv "wall-messages" = none := by
  obtain ⟨name, email, message, created, out, hn, he, hmsg, hcr, hout, hs, hb, hkv, _, hwall, _⟩ :=
    post_contact_appends_unexposed exampleRuntime calmEnv emptyStore bobContact bobBody []
      rfl rfl rfl rfl rfl rfl (Or.inl ⟨rfl, rfl⟩) rfl (fun _ => rfl) rfl
  have hn' : name = Json.str "Bob" := (Option.some.inj hn).symm
  have he' : email = Json.str "bob@example.org" := (Option.some.inj he).symm
  have hm' : message = Json.str "hello" := (Option.some.inj hmsg).symm
  subst hn' he' hm'
  subst hcr
  exact ⟨out, hout, hs, hb, hkv, hwall⟩

/-! ## Failures of the collaborators -/

theorem postMessage_failure (rt : Runtime) (env : Env) (kv : Store) (request : Request) :
    ((rt.parse request.body = none ∨
        ∃ e ∈ (postMessage rt env kv request).trace, e.isStoreFailure = true) →
      (postMessage rt env kv request).response = jsonResponse rt 500 (errorObj "添加留言失败") ∧
      (∀ e ∈ (postMessage rt env kv request).trace, e.isFetch = false) ∧
      (postMessage rt env kv request).kv = kv) ∧
    ((∃ e ∈ (postMessage rt env kv request).trace, e.isGet = true ∧ e.isStoreFailure = true) →
      ∀ e ∈ (postMessage rt env kv request).trace, e.isPut = false) := by
  unfold postMessage
  split
  · simp
  · simp
  · rename_i data hnull hparse
    split
    · split
      · simp [hparse]
      · split
        · simp [hparse, Event.isStoreFailure, Event.isFetch, Event.isGet, Event.isPut]
        · split
          · simp only []
            split
            · simp [hparse, Event.isStoreFailure, Event.isFetch, Event.isGet, Event.isPut]
            · split
              · simp [hparse, Event.isStoreFailure, Event.isFetch, Event.isGet, Event.isPut]
              · rename_i events hev
                have hno := sendNotification_no_store_call rt env _ _ events hev
                simp only [hparse, false_or, List.mem_append, List.mem_cons, List.mem_singleton,
                  List.not_mem_nil, or_false]
                constructor
                · rintro (h | ⟨e, (rfl | rfl) | he, hf⟩)
                  · exact absurd h (by simp)
                  · simp [Event.isStoreFailure] at hf
                  · simp [Event.isStoreFailure] at hf
                  · rw [(hno e he).1] at hf; exact absurd hf (by simp)
                · rintro ⟨e, (rfl | rfl) | he, hg, hf⟩
                  · simp [Event.isStoreFailure] at hf
                  · simp [Event.isStoreFailure] at hf
                  · rw [(hno e he).1] at hf; exact absurd hf (by simp)
          · simp [hparse, Event.isStoreFailure, Event.isFetch, Event.isGet, Event.isPut]
    · simp [hparse]

theorem postContact_failure (rt : Runtime) (env : Env) (kv : Store) (request : Request) :
    ((rt.parse request.body = none ∨
        ∃ e ∈ (postContact rt env kv request).trace, e.isStoreFailure = true) →
      (postContact rt env kv request).response = jsonResponse rt 500 (errorObj "提交联系表单失败") ∧
      (∀ e ∈ (postContact rt env kv request).trace, e.isFetch = false) ∧
      (postContact rt env kv request).kv = kv) ∧
    ((∃ e ∈ (postContact rt env kv request).trace, e.isGet = true ∧ e.isStoreFailure = true) →
      ∀ e ∈ (postContact rt env kv request).trace, e.isPut = false) := by
  unfold postContact
  split
  · simp
  · simp
  · rename_i data hnull hparse
    split
    · split
      · simp [hparse]
      · split
        · simp [hparse, Event.isStoreFailure, Event.isFetch, Event.isGet, Event.isPut]
        · split
          · simp only []
            split
            · simp [hparse, Event.isStoreFailure, Event.isFetch, Event.isGet, Event.isPut]
            · split
              · simp [hparse, Event.isStoreFailure, Event.isFetch, Event.isGet, Event.isPut]
              · rename_i events hev
                have hno := sendNotification_no_store_call rt env _ _ events hev
                simp only [hparse, false_or, List.mem_append, List.mem_cons, List.mem_singleton,
                  List.not_mem_nil, or_false]
                constructor
                · rintro (h | ⟨e, (rfl | rfl) | he, hf⟩)
                  · exact absurd h (by simp)
                  · simp [Event.isStoreFailure] at hf
                  · simp [Event.isStoreFailure] at hf
                  · rw [(hno e he).1] at hf; exact absurd hf (by simp)
                · rintro ⟨e, (rfl | rfl) | he, hg, hf⟩
                  · simp [Event.isStoreFailure] at hf
                  · simp [Event.isStoreFailure] at hf
                  · rw [(hno e he).1] at hf; exact absurd hf (by simp)
          · simp [hparse, Event.isStoreFailure, Event.isFetch, Event.isGet, Event.isPut]
    · simp [hparse]

/-- C8: a collaborator failure aborts the rest of the request. For `POST /api/messages` (resp.
`POST /api/contact`), if the body fails to parse as JSON, or a call of the store throws during
the request, the response is status 500 with the body `{error: "添加留言失败"}` (resp.
`{error: "提交联系表单失败"}`), no outbound request is made (no notification is sent), and the
store holds exactly what it held before the request; and when the read of the store throws, the
request performs no write. -/
theorem collaborator_failure_aborts (rt : Runtime) (env : Env) (kv : Store) (request : Request)
    (hm : request.method = "POST") :
    (request.path = "/api/messages" →
      ∃ out, handleRequest rt env kv request = some out ∧
        ((rt.parse request.body = none ∨ ∃ e ∈ out.trace, e.isStoreFailure = true) →
          out.response = { status := 500, headers := corsHeaders,
                           body := some (rt.stringify (errorObj "添加留言失败")) } ∧
          (∀ e ∈ out.trace, e.isFetch = false) ∧
          out.kv = kv) ∧
        ((∃ e ∈ out.trace, e.isGet = true ∧ e.isStoreFailure = true) →
          ∀ e ∈ out.trace, e.isPut = false)) ∧
    (request.path = "/api/contact" →
      ∃ out, handleRequest rt env kv request = some out ∧
        ((rt.parse request.body = none ∨ ∃ e ∈ out.trace, e.isStoreFailure = true) →
          out.response = { status := 500, headers := corsHeaders,
                           body := some (rt.stringify (errorObj "提交联系表单失败")) } ∧
          (∀ e ∈ out.trace, e.isFetch = false) ∧
          out.kv = kv) ∧
        ((∃ e ∈ out.trace, e.isGet = true ∧ e.isStoreFailure = true) →
          ∀ e ∈ out.trace, e.isPut = false)) := by
  constructor
  · intro hp
    exact ⟨postMessage rt env kv request, handleRequest_post_messages rt env kv request hm hp,
      postMessage_failure rt env kv request⟩
  · intro hp
    exact ⟨postContact rt env kv request, handleRequest_post_contact rt env kv request hm hp,
      postContact_failure rt env kv request⟩

theorem collaborator_failure_aborts_witness :
    (∃ out, handleRequest exampleRuntime brokenReadEnv emptyStore alicePost = some out ∧
      out.response = { status := 500, headers := corsHeaders,
                       body := some "\x7b\"error\":\"添加留言失败\"\x7d" } ∧
      (∀ e ∈ out.trace, e.isFetch = false) ∧ out.kv = emptyStore ∧
      ∀ e ∈ out.trace, e.isPut = false) ∧
    (∃ out, handleRequest exampleRuntime brokenWriteEnv emptyStore bobContact = some out ∧
      out.response = { status := 500, headers := corsHeaders,
                       body := some "\x7b\"error\":\"提交联系表单失败\"\x7d" } ∧
      (∀ e ∈ out.trace, e.isFetch = false) ∧ out.kv = emptyStore) := by
  constructor
  · obtain ⟨out, hout, hfail, hread⟩ :=
      (collaborator_failure_aborts exampleRuntime brokenReadEnv emptyStore alicePost rfl).1 rfl
    have hval : handleRequest exampleRuntime brokenReadEnv emptyStore alicePost =
        some ⟨jsonResponse exampleRuntime 500 (errorObj "添加留言失败"), emptyStore,
          [Event.kvGet "wall-messages" true]⟩ := rfl
    have hmem : Event.kvGet "wall-messages" true ∈ out.trace := by
      rw [← Option.some.inj (hval.symm.trans hout)]
      exact List.mem_singleton.mpr rfl
    obtain ⟨hresp, hfetch, hkv⟩ := hfail (Or.inr ⟨_, hmem, rfl⟩)
    exact ⟨out, hout, hresp, hfetch, hkv, hread ⟨_, hmem, rfl, rfl⟩⟩
  · obtain ⟨out, hout, hfail, _⟩ :=
      (collaborator_failure_aborts exampleRuntime brokenWriteEnv emptyStore bobContact rfl).2 rfl
    have hval : handleRequest exampleRuntime brokenWriteEnv emptyStore bobContact =
        some ⟨jsonResponse exampleRuntime 500 (errorObj "提交联系表单失败"), emptyStore,
          [Event.kvGet "contact-submissions" false,
            Event.kvPut "contact-submissions"
              (exampleRuntime.stringify (Json.arr [newContact brokenWriteEnv (Json.str "Bob")
                (Json.str "bob@example.org") (Json.str "hello")])) true]⟩ := rfl
    have hmem : Event.kvPut "contact-submissions"
        (exampleRuntime.stringify (Json.arr [newContact brokenWriteEnv (Json.str "Bob")
          (Json.str "bob@example.org") (Json.str "hello")])) true ∈ out.trace := by
      rw [← Option.some.inj (hval.symm.trans hout)]
      exact List.mem_cons_of_mem _ (List.mem_singleton.mpr rfl)
    obtain ⟨hresp, hfetch, hkv⟩ := hfail (Or.inr ⟨_, hmem, rfl⟩)
    exact ⟨out, hout, hresp, hfetch, hkv⟩

/-! ## The notification binding -/

/-- C4, at the failing input: in an environment that defines no `NOTIFICATION_API_URL`, the valid
`POST /api/messages` of Alice on the empty store is answered with status 500 and the body
`{error: "添加留言失败"}` after the message was written to the store, whereas with the binding
defined (empty, or a webhook URL) the same request is answered with status 200 and the created
message; the store afterwards is the same in the three cases. The valid `POST /api/contact` of
Bob is answered with 500 in the first environment and with 200 when the binding is defined. -/
theorem unbound_notification_url_fails_post :
    (handleRequest exampleRuntime unboundEnv emptyStore alicePost).map
        (fun out => (out.response.status, out.response.body, out.kv "wall-messages")) =
      some (500, some "\x7b\"error\":\"添加留言失败\"\x7d",
        some "[\x7b\"id\":1000,\"name\":\"Alice\",\"email\":\"\",\"content\":\"hi\",\"timestamp\":1000\x7d]") ∧
    (handleRequest exampleRuntime calmEnv emptyStore alicePost).map
        (fun out => (out.response.status, out.response.body, out.kv "wall-messages")) =
      some (200,
        some "\x7b\"id\":1000,\"name\":\"Alice\",\"email\":\"\",\"content\":\"hi\",\"timestamp\":1000\x7d",
        some "[\x7b\"id\":1000,\"name\":\"Alice\",\"email\":\"\",\"content\":\"hi\",\"timestamp\":1000\x7d]") ∧
    (handleRequest exampleRuntime hookEnv emptyStore alicePost).map
        (fun out => (out.response.status, out.response.body, out.kv "wall-messages")) =
      some (200,
        some "\x7b\"id\":1000,\"name\":\"Alice\",\"email\":\"\",\"content\":\"hi\",\"timestamp\":1000\x7d",
        some "[\x7b\"id\":1000,\"name\":\"Alice\",\"email\":\"\",\"content\":\"hi\",\"timestamp\":1000\x7d]") ∧
    (handleRequest exampleRuntime unboundEnv emptyStore bobContact).map
        (fun out => (out.response.status, out.response.body)) =
      some (500, some "\x7b\"error\":\"提交联系表单失败\"\x7d") ∧
    (handleRequest exampleRuntime calmEnv emptyStore bobContact).map
        (fun out => (out.response.status, out.response.body)) =
      some (200, some "\x7b\"success\":true\x7d") := by
  refine ⟨?_, ?_, ?_, ?_, ?_⟩ <;> decide

theorem unbound_binding_fails_valid_post (rt : Runtime) (env : Env) (kv : Store)
    (request : Request) (d : Json) (L : List Json)
    (hm : request.method = "POST") (hp : request.path = "/api/messages")
    (hbody : rt.parse request.body = some d)
    (hname : truthy (d.prop "name") = true) (hcontent : truthy (d.prop "content") = true)
    (hstore : holdsList rt kv "wall-messages" L)
    (hget : env.getThrows "wall-messages" = false)
    (hput : ∀ value, env.putThrows "wall-messages" value = false)
    (hurl : env.notificationApiUrl = none) :
    ∃ created out,
      handleRequest rt env kv request = some out ∧
      out.response.status = 500 ∧
      out.response.body = some (rt.stringify (errorObj "添加留言失败")) ∧
      out.kv "wall-messages" = some (rt.stringify (Json.arr (L ++ [created]))) := by
  obtain ⟨name, hn, htn⟩ := prop_of_truthy d "name" hname
  obtain ⟨content, hc, htc⟩ := prop_of_truthy d "content" hcontent
  have hpost := postMessage_valid rt env kv request d name content L hbody hn hc htn htc hget
    (holdsList_parseOrEmpty rt kv "wall-messages" L hstore) (hput _)
  rw [sendNotification_unbound rt env _ _ hurl] at hpost
  simp only [] at hpost
  refine ⟨newMessage env name (d.prop "email") content, postMessage rt env kv request,
    handleRequest_post_messages rt env kv request hm hp, ?_, ?_, ?_⟩
  · rw [hpost]; rfl
  · rw [hpost]; rfl
  · rw [hpost]; simp [Store.put]

theorem unbound_binding_fails_valid_contact (rt : Runtime) (env : Env) (kv : Store)
    (request : Request) (d : Json) (C : List Json)
    (hm : request.method = "POST") (hp : request.path = "/api/contact")
    (hbody : rt.parse request.body = some d)
    (hname : truthy (d.prop "name") = true) (hemail : truthy (d.prop "email") = true)
    (hmessage : truthy (d.prop "message") = true)
    (hstore : holdsList rt kv "contact-submissions" C)
    (hget : env.getThrows "contact-submissions" = false)
    (hput : ∀ value, env.putThrows "contact-submissions" value = false)
    (hurl : env.notificationApiUrl = none) :
    ∃ created out,
      handleRequest rt env kv request = some out ∧
      out.response.status = 500 ∧
      out.response.body = some (rt.stringify (errorObj "提交联系表单失败")) ∧
      out.kv "contact-submissions" = some (rt.stringify (Json.arr (C ++ [created]))) := by
  obtain ⟨name, hn, htn⟩ := prop_of_truthy d "name" hname
  obtain ⟨email, he, hte⟩ := prop_of_truthy d "email" hemail
  obtain ⟨message, hmsg, htm⟩ := prop_of_truthy d "message" hmessage
  have hpost := postContact_valid rt env kv request d name email message C hbody hn he hmsg
    htn hte htm hget (holdsList_parseOrEmpty rt kv "contact-submissions" C hstore) (hput _)
  rw [sendNotification_unbound rt env _ _ hurl] at hpost
  simp only [] at hpost
  refine ⟨newContact env name email message, postContact rt env kv request,
    handleRequest_post_contact rt env kv request hm hp, ?_, ?_, ?_⟩
  · rw [hpost]; rfl
  · rw [hpost]; rfl
  · rw [hpost]; simp [Store.put]

theorem notification_invisible_when_bound (rt : Runtime) (env1 env2 : Env) (kv : Store)
    (request : Request) (d : Json) (L : List Json)
    (hm : request.method = "POST") (hp : request.path = "/api/messages")
    (hbody : rt.parse request.body = some d)
    (hname : truthy (d.prop "name") = true) (hcontent : truthy (d.prop "content") = true)
    (hstore : holdsList rt kv "wall-messages" L)
    (hget1 : env1.getThrows "wall-messages" = false)
    (hget2 : env2.getThrows "wall-messages" = false)
    (hput1 : ∀ value, env1.putThrows "wall-messages" value = false)
    (hput2 : ∀ value, env2.putThrows "wall-messages" value = false)
    (hnow : env1.now = env2.now)
    (h1 : env1.notificationApiUrl.isSome) (h2 : env2.notificationApiUrl.isSome) :
    (handleRequest rt env1 kv request).map (fun out => (out.response, out.kv)) =
      (handleRequest rt env2 kv request).map (fun out => (out.response, out.kv)) := by
  obtain ⟨name, hn, htn⟩ := prop_of_truthy d "name" hname
  obtain ⟨content, hc, htc⟩ := prop_of_truthy d "content" hcontent
  have hnew : newMessage env1 name (d.prop "email") content =
      newMessage env2 name (d.prop "email") content := by
    simp [newMessage, hnow]
  obtain ⟨ev1, hev1⟩ := sendNotification_bound rt env1 "message"
    (newMessage env1 name (d.prop "email") content) h1
  obtain ⟨ev2, hev2⟩ := sendNotification_bound rt env2 "message"
    (newMessage env2 name (d.prop "email") content) h2
  have hpost1 := postMessage_valid rt env1 kv request d name content L hbody hn hc htn htc hget1
    (holdsList_parseOrEmpty rt kv "wall-messages" L hstore) (hput1 _)
  have hpost2 := postMessage_valid rt env2 kv request d name content L hbody hn hc htn htc hget2
    (holdsList_parseOrEmpty rt kv "wall-messages" L hstore) (hput2 _)
  rw [hev1] at hpost1
  rw [hev2] at hpost2
  simp only [] at hpost1 hpost2
  rw [handleRequest_post_messages rt env1 kv request hm hp,
    handleRequest_post_messages rt env2 kv request hm hp, hpost1, hpost2, hnew]
  rfl

/-! ## The identifier and the timestamp -/

theorem postMessage_ok (rt : Runtime) (env : Env) (kv : Store) (request : Request)
    (hok : (postMessage rt env kv request).response.status = 200) :
    ∃ prior name email content,
      (postMessage rt env kv request).kv "wall-messages" =
        some (rt.stringify (Json.arr (prior ++ [newMessage env name email content]))) ∧
      (postMessage rt env kv request).response.body =
        some (rt.stringify (newMessage env name email content)) := by
  unfold postMessage at hok ⊢
  split at hok
  · simp [jsonResponse] at hok
  · simp [jsonResponse] at hok
  · split at hok
    · split at hok
      · simp [jsonResponse] at hok
      · split at hok
        · simp [jsonResponse] at hok
        · split at hok
          · simp only [] at hok
            split at hok
            · simp [jsonResponse] at hok
            · split at hok
              · simp [jsonResponse] at hok
              · rename_i data _ hparse _ _ name content hn hc hv hg _ messages hst hp _ events hev
                refine ⟨messages, name, data.prop "email", content, ?_, ?_⟩
                · simp [hparse, hn, hc, hst, hev, hg, hp, hv, Store.put]
                · simp [hparse, hn, hc, hst, hev, hg, hp, hv, jsonResponse]
          · simp [jsonResponse] at hok
    · simp [jsonResponse] at hok

theorem postContact_ok (rt : Runtime) (env : Env) (kv : Store) (request : Request)
    (hok : (postContact rt env kv request).response.status = 200) :
    ∃ prior name email message,
      (postContact rt env kv request).kv "contact-submissions" =
        some (rt.stringify (Json.arr (prior ++ [newContact env name email message]))) := by
  unfold postContact at hok ⊢
  split at hok
  · simp [jsonResponse] at hok
  · simp [jsonResponse] at hok
  · split at hok
    · split at hok
      · simp [jsonResponse] at hok
      · split at hok
        · simp [jsonResponse] at hok
        · split at hok
          · simp only [] at hok
            split at hok
            · simp [jsonResponse] at hok
            · split at hok
              · simp [jsonResponse] at hok
              · rename_i data _ hparse _ _ _ name email message hn he hmsg hv hg _ contacts hst
                  hp _ events hev
                refine ⟨contacts, name, email, message, ?_⟩
                simp [hparse, hn, he, hmsg, hst, hev, hg, hp, hv, Store.put]
          · simp [jsonResponse] at hok
    · simp [jsonResponse] at hok

theorem newMessage_id (env : Env) (name : Json) (email : Option Json) (content : Json) :
    (newMessage env name email content).prop "id" = some (Json.num (env.now 0)) := by
  simp [newMessage, Json.prop, lookupField]

theorem newMessage_timestamp (env : Env) (name : Json) (email : Option Json) (content : Json) :
    (newMessage env name email content).prop "timestamp" = some (Json.num (env.now 1)) := by
  simp [newMessage, Json.prop, lookupField]

theorem newContact_id (env : Env) (name email message : Json) :
    (newContact env name email message).prop "id" = some (Json.num (env.now 0)) := by
  simp [newContact, Json.prop, lookupField]

theorem newContact_timestamp (env : Env) (name email message : Json) :
    (newContact env name email message).prop "timestamp" = some (Json.num (env.now 1)) := by
  simp [newContact, Json.prop, lookupField]

/-- C6, as stated, fails: with a clock that advances between its two readings, the Message
created by the successful `POST /api/messages` of Alice has the id 1000 and the timestamp
1001. -/
theorem id_differs_from_timestamp :
    ∃ out created,
      handleRequest exampleRuntime tickingEnv emptyStore alicePost = some out ∧
      out.response.status = 200 ∧
      out.response.body = some (exampleRuntime.stringify created) ∧
      out.response.body = some
        "\x7b\"id\":1000,\"name\":\"Alice\",\"email\":\"\",\"content\":\"hi\",\"timestamp\":1001\x7d" ∧
      created.prop "id" = some (Json.num 1000) ∧
      created.prop "timestamp" = some (Json.num 1001) ∧
      created.prop "id" ≠ created.prop "timestamp" := by
  refine ⟨postMessage exampleRuntime tickingEnv emptyStore alicePost,
    newMessage tickingEnv (Json.str "Alice") none (Json.str "hi"),
    handleRequest_post_messages _ _ _ _ rfl rfl, rfl, rfl, rfl, rfl, rfl, ?_⟩
  rw [newMessage_id, newMessage_timestamp]
  simp [tickingEnv]

/-- C6, amended: a Message or ContactSubmission created by a successful POST has as `id` the
first and as `timestamp` the second reading of the clock during the request, for every clock;
so `id == timestamp` exactly when the two readings are equal. -/
theorem created_id_timestamp (rt : Runtime) (env : Env) (kv : Store) (request : Request)
    (out : Outcome) (hm : request.method = "POST")
    (hout : handleRequest rt env kv request = some out)
    (hok : out.response.status = 200) :
    (request.path = "/api/messages" →
      ∃ prior created,
        out.kv "wall-messages" = some (rt.stringify (Json.arr (prior ++ [created]))) ∧
        out.response.body = some (rt.stringify created) ∧
        created.prop "id" = some (Json.num (env.now 0)) ∧
        created.prop "timestamp" = some (Json.num (env.now 1)) ∧
        (created.prop "id" = created.prop "timestamp" ↔ env.now 0 = env.now 1)) ∧
    (request.path = "/api/contact" →
      ∃ prior created,
        out.kv "contact-submissions" = some (rt.stringify (Json.arr (prior ++ [created]))) ∧
        created.prop "id" = some (Json.num (env.now 0)) ∧
        created.prop "timestamp" = some (Json.num (env.now 1)) ∧
        (created.prop "id" = created.prop "timestamp" ↔ env.now 0 = env.now 1)) := by
  constructor
  · intro hp
    rw [handleRequest_post_messages rt env kv request hm hp] at hout
    have hout' := Option.some.inj hout
    subst hout'
    obtain ⟨prior, name, email, content, hkv, hb⟩ := postMessage_ok rt env kv request hok
    refine ⟨prior, newMessage env name email content, hkv, hb, newMessage_id _ _ _ _,
      newMessage_timestamp _ _ _ _, ?_⟩
    rw [newMessage_id, newMessage_timestamp]
    constructor
    · intro h
      exact Json.num.inj (Option.some.inj h)
    · intro h
      rw [h]
  · intro hp
    rw [handleRequest_post_contact rt env kv request hm hp] at hout
    have hout' := Option.some.inj hout
    subst hout'
    obtain ⟨prior, name, email, message, hkv⟩ := postContact_ok rt env kv request hok
    refine ⟨prior, newContact env name email message, hkv, newContact_id _ _ _ _,
      newContact_timestamp _ _ _ _, ?_⟩
    rw [newContact_id, newContact_timestamp]
    constructor
    · intro h
      exact Json.num.inj (Option.some.inj h)
    · intro h
      rw [h]

theorem created_id_timestamp_witness :
    (∃ prior created,
      (postMessage exampleRuntime tickingEnv laterStore alicePost).kv "wall-messages" =
        some (exampleRuntime.stringify (Json.arr (prior ++ [created]))) ∧
      (postMessage exampleRuntime tickingEnv laterStore alicePost).response.body =
        some (exampleRuntime.stringify created) ∧
      created.prop "id" = some (Json.num 1000) ∧
      created.prop "timestamp" = some (Json.num 1001) ∧
      (created.prop "id" = created.prop "timestamp" ↔ (1000 : Int) = 1001)) ∧
    (∃ prior created,
      (postContact exampleRuntime tickingEnv emptyStore bobContact).kv "contact-submissions" =
        some (exampleRuntime.stringify (Json.arr (prior ++ [created]))) ∧
      created.prop "id" = some (Json.num 1000) ∧
      created.prop "timestamp" = some (Json.num 1001) ∧
      (created.prop "id" = created.prop "timestamp" ↔ (1000 : Int) = 1001)) ∧
    (∃ prior created,
      (postMessage exampleRuntime calmEnv laterStore alicePost).kv "wall-messages" =
        some (exampleRuntime.stringify (Json.arr (prior ++ [created]))) ∧
      (postMessage exampleRuntime calmEnv laterStore alicePost).response.body =
        some (exampleRuntime.stringify created) ∧
      created.prop "id" = some (Json.num 1000) ∧
      created.prop "timestamp" = some (Json.num 1000) ∧
      (created.prop "id" = created.prop "timestamp" ↔ (1000 : Int) = 1000)) :=
  ⟨(created_id_timestamp exampleRuntime tickingEnv laterStore alicePost
      (postMessage exampleRuntime tickingEnv laterStore alicePost) rfl
      (handleRequest_post_messages _ _ _ _ rfl rfl) rfl).1 rfl,
   (created_id_timestamp exampleRuntime tickingEnv emptyStore bobContact
      (postContact exampleRuntime tickingEnv emptyStore bobContact) rfl
      (handleRequest_post_contact _ _ _ _ rfl rfl) rfl).2 rfl,
   (created_id_timestamp exampleRuntime calmEnv laterStore alicePost
      (postMessage exampleRuntime calmEnv laterStore alicePost) rfl
      (handleRequest_post_messages _ _ _ _ rfl rfl) rfl).1 rfl⟩

/-! ## A write followed by a read -/

theorem timestampOf_newMessage (env : Env) (name : Json) (email : Option Json) (content : Json) :
    timestampOf (newMessage env name email content) = some (env.now 1) := by
  simp [timestampOf, newMessage_timestamp]

theorem arraySort_append_newest (L : List Json) (c : Json) (tc : Int)
    (hc : timestampOf c = some tc)
    (hold : ∀ m ∈ L, ∃ t, timestampOf m = some t ∧ t < tc) :
    arraySort compareFn (L ++ [c]) = c :: arraySort compareFn L := by
  induction L with
  | nil => rfl
  | cons a rest ih =>
    obtain ⟨ta, hta, hlt⟩ := hold a (List.mem_cons_self _ _)
    have hrest : ∀ m ∈ rest, ∃ t, timestampOf m = some t ∧ t < tc := fun m hm =>
      hold m (List.mem_cons_of_mem _ hm)
    have hstep : arraySort compareFn (a :: rest ++ [c]) =
        insertSorted compareFn a (arraySort compareFn (rest ++ [c])) := rfl
    rw [hstep, ih hrest]
    have hcmp : ¬ compareFn a c ≤ 0 := by
      rw [compareFn_of_timestamps hta hc]; omega
    show insertSorted compareFn a (c :: arraySort compareFn rest) = _
    unfold insertSorted
    rw [if_neg hcmp]
    rfl

/-- C7, as stated, fails: on a store whose `wall-messages` holds a Message with the timestamp
5000, the successful `POST /api/messages` of Alice at the clock reading 1000 returns the Message
with the id 1000, and the `GET /api/messages` that follows returns an array whose first element
is the stored Message with the id 5000. -/
theorem later_message_stays_first :
    ∃ out1 out2 first rest,
      handleRequest exampleRuntime calmEnv laterStore alicePost = some out1 ∧
      out1.response.status = 200 ∧
      out1.response.body = some
        "\x7b\"id\":1000,\"name\":\"Alice\",\"email\":\"\",\"content\":\"hi\",\"timestamp\":1000\x7d" ∧
      handleRequest exampleRuntime calmEnv out1.kv listMessages = some out2 ∧
      out2.response.status = 200 ∧
      out2.response.body = some (exampleRuntime.stringify (Json.arr (first :: rest))) ∧
      out2.response.body = some
        "[\x7b\"id\":5000,\"name\":\"Zoe\",\"email\":\"\",\"content\":\"first\",\"timestamp\":5000\x7d,\x7b\"id\":1000,\"name\":\"Alice\",\"email\":\"\",\"content\":\"hi\",\"timestamp\":1000\x7d]" ∧
      first.prop "id" = some (Json.num 5000) := by
  refine ⟨postMessage exampleRuntime calmEnv laterStore alicePost,
    ⟨jsonResponse exampleRuntime 200 (Json.arr
      [Json.obj [("id", Json.num 5000), ("name", Json.str "Zoe"), ("email", Json.str ""),
         ("content", Json.str "first"), ("timestamp", Json.num 5000)],
       newMessage calmEnv (Json.str "Alice") none (Json.str "hi")]),
      (postMessage exampleRuntime calmEnv laterStore alicePost).kv,
      [Event.kvGet "wall-messages" false]⟩,
    Json.obj [("id", Json.num 5000), ("name", Json.str "Zoe"), ("email", Json.str ""),
      ("content", Json.str "first"), ("timestamp", Json.num 5000)],
    [newMessage calmEnv (Json.str "Alice") none (Json.str "hi")],
    handleRequest_post_messages _ _ _ _ rfl rfl, rfl, rfl, rfl, rfl, rfl, rfl, rfl⟩

/-- C7, amended: for a store in which `wall-messages` is absent or holds a JSON list of Messages
whose timestamps are all smaller than the timestamp of the new Message, after a successful
`POST /api/messages` the `GET /api/messages` that follows, with no write in between, returns
status 200 and a non-empty array whose first element is the Message returned by the POST, with
the same `id`. The engine is assumed to read back the text it printed for the stored list. -/
theorem post_then_get_newest_first (rt : Runtime) (env env2 : Env) (kv : Store)
    (request get : Request) (d name content : Json) (L : List Json)
    (hm : request.method = "POST") (hp : request.path = "/api/messages")
    (hbody : rt.parse request.body = some d)
    (hn : d.prop "name" = some name) (hc : d.prop "content" = some content)
    (htn : truthy (some name) = true) (htc : truthy (some content) = true)
    (hstore : holdsList rt kv "wall-messages" L)
    (hget : env.getThrows "wall-messages" = false)
    (hput : ∀ value, env.putThrows "wall-messages" value = false)
    (hurl : env.notificationApiUrl.isSome)
    (hold : ∀ m ∈ L, ∃ t, timestampOf m = some t ∧ t < env.now 1)
    (hback : readsBack rt (Json.arr (L ++ [Json.obj [("id", Json.num (env.now 0)),
      ("name", name), ("email", orElse (d.prop "email") (Json.str "")), ("content", content),
      ("timestamp", Json.num (env.now 1))]])))
    (hgm : get.method = "GET") (hgp : get.path = "/api/messages")
    (hget2 : env2.getThrows "wall-messages" = false) :
    ∃ created out1 out2 rest,
      created = Json.obj [("id", Json.num (env.now 0)), ("name", name),
        ("email", orElse (d.prop "email") (Json.str "")), ("content", content),
        ("timestamp", Json.num (env.now 1))] ∧
      handleRequest rt env kv request = some out1 ∧
      out1.response.status = 200 ∧
      out1.response.body = some (rt.stringify created) ∧
      handleRequest rt env2 out1.kv get = some out2 ∧
      out2.response.status = 200 ∧
      out2.response.body = some (rt.stringify (Json.arr (created :: rest))) ∧
      created.prop "id" = some (Json.num (env.now 0)) ∧
      rest.Perm L := by
  obtain ⟨events, hev⟩ := sendNotification_bound rt env "message"
    (newMessage env name (d.prop "email") content) hurl
  have hpost := postMessage_valid rt env kv request d name content L hbody hn hc htn htc hget
    (holdsList_parseOrEmpty rt kv "wall-messages" L hstore) (hput _)
  rw [hev] at hpost
  simp only [] at hpost
  have hkv : (postMessage rt env kv request).kv "wall-messages" =
      some (rt.stringify (Json.arr (L ++ [newMessage env name (d.prop "email") content]))) := by
    rw [hpost]; simp [Store.put]
  have hstore2 : parseOrEmpty rt ((postMessage rt env kv request).kv "wall-messages") =
      some (Json.arr (L ++ [newMessage env name (d.prop "email") content])) := by
    rw [hkv]
    exact holdsList_parseOrEmpty rt (fun _ => some _) "wall-messages" _
      (Or.inr ⟨_, hback.1, rfl, hback.2⟩)
  have hts : ∀ m ∈ L ++ [newMessage env name (d.prop "email") content],
      (timestampOf m).isSome := by
    intro m hmem
    rcases List.mem_append.mp hmem with h | h
    · obtain ⟨t, ht, _⟩ := hold m h
      rw [ht]; rfl
    · rw [List.mem_singleton.mp h, timestampOf_newMessage]; rfl
  have hsort := arraySort_append_newest L (newMessage env name (d.prop "email") content)
    (env.now 1) (timestampOf_newMessage _ _ _ _) hold
  refine ⟨newMessage env name (d.prop "email") content, postMessage rt env kv request,
    ⟨jsonResponse rt 200 (Json.arr (newMessage env name (d.prop "email") content ::
      arraySort compareFn L)), (postMessage rt env kv request).kv,
      [Event.kvGet "wall-messages" false]⟩,
    arraySort compareFn L, rfl, handleRequest_post_messages rt env kv request hm hp,
    ?_, ?_, ?_, rfl, rfl, newMessage_id _ _ _ _, perm_arraySort compareFn L⟩
  · rw [hpost]; rfl
  · rw [hpost]; rfl
  · rw [handleRequest_get_messages rt env2 _ get hgm hgp,
      getMessages_list rt env2 _ _ hget2 hstore2 hts, hsort]

theorem post_then_get_newest_first_witness :
    ∃ out1 out2 rest,
      handleRequest exampleRuntime calmEnv emptyStore alicePost = some out1 ∧
      out1.response.status = 200 ∧
      out1.response.body = some
        "\x7b\"id\":1000,\"name\":\"Alice\",\"email\":\"\",\"content\":\"hi\",\"timestamp\":1000\x7d" ∧
      handleRequest exampleRuntime calmEnv out1.kv listMessages = some out2 ∧
      out2.response.status = 200 ∧
      out2.response.body = some (exampleRuntime.stringify (Json.arr
        (Json.obj [("id", Json.num 1000), ("name", Json.str "Alice"), ("email", Json.str ""),
          ("content", Json.str "hi"), ("timestamp", Json.num 1000)] :: rest))) ∧
      rest.Perm [] := by
  obtain ⟨created, out1, out2, rest, hcr, h1, h2, h3, h4, h5, h6, _, h8⟩ :=
    post_then_get_newest_first exampleRuntime calmEnv calmEnv emptyStore alicePost listMessages
      aliceBody (Json.str "Alice") (Json.str "hi") [] rfl rfl rfl rfl rfl rfl rfl
      (Or.inl ⟨rfl, rfl⟩) rfl (fun _ => rfl) rfl
      (fun m hmem => absurd hmem (List.not_mem_nil m))
      ⟨by decide, rfl⟩ rfl rfl rfl
  subst hcr
  exact ⟨out1, out2, rest, h1, h2, h3, h4, h5, h6, h8⟩

/-! ## The valid writes in an environment without the notification binding -/

/-- C1, at the failing input: in an environment that defines no `NOTIFICATION_API_URL`, on a
store whose `wall-messages` holds three messages, the valid `POST /api/messages` of Alice is
answered with status 500 and the body `{error: "添加留言失败"}`, not with status 200 and the new
Message, although the Message was appended to the stored list; with the binding defined the
same request is answered with status 200 and the new Message. -/
theorem valid_message_post_answers_500 :
    (handleRequest exampleRuntime unboundEnv shelfStore alicePost).map
        (fun out => (out.response.status, out.response.body, out.kv "wall-messages")) =
      some (500, some "\x7b\"error\":\"添加留言失败\"\x7d",
        some "[\x7b\"id\":1,\"timestamp\":1\x7d,\x7b\"id\":3,\"timestamp\":3\x7d,\x7b\"id\":2,\"timestamp\":2\x7d,\x7b\"id\":1000,\"name\":\"Alice\",\"email\":\"\",\"content\":\"hi\",\"timestamp\":1000\x7d]") ∧
    (handleRequest exampleRuntime calmEnv shelfStore alicePost).map
        (fun out => (out.response.status, out.response.body, out.kv "wall-messages")) =
      some (200,
        some "\x7b\"id\":1000,\"name\":\"Alice\",\"email\":\"\",\"content\":\"hi\",\"timestamp\":1000\x7d",
        some "[\x7b\"id\":1,\"timestamp\":1\x7d,\x7b\"id\":3,\"timestamp\":3\x7d,\x7b\"id\":2,\"timestamp\":2\x7d,\x7b\"id\":1000,\"name\":\"Alice\",\"email\":\"\",\"content\":\"hi\",\"timestamp\":1000\x7d]") ∧
    exampleRuntime.parse alicePost.body = some aliceBody ∧
    truthy (aliceBody.prop "name") = true ∧ truthy (aliceBody.prop "content") = true ∧
    unboundEnv.getThrows "wall-messages" = false := by
  refine ⟨?_, ?_, rfl, rfl, rfl, rfl⟩ <;> decide

/-- C5, at the failing input: in an environment that defines no `NOTIFICATION_API_URL`, on a
store whose `contact-submissions` holds one submission, the valid `POST /api/contact` of Bob is
answered with status 500 and the body `{error: "提交联系表单失败"}`, not with status 200 and
`{success: true}`, although the submission was appended to the stored list (`wall-messages` is
unchanged); with the binding defined the same request is answered with status 200 and
`{success: true}`. -/
theorem valid_contact_post_answers_500 :
    (handleRequest exampleRuntime unboundEnv inboxStore bobContact).map
        (fun out => (out.response.status, out.response.body, out.kv "contact-submissions",
          out.kv "wall-messages")) =
      some (500, some "\x7b\"error\":\"提交联系表单失败\"\x7d",
        some "[\x7b\"id\":7,\"name\":\"Ann\",\"email\":\"ann@example.org\",\"message\":\"hey\",\"timestamp\":7\x7d,\x7b\"id\":1000,\"name\":\"Bob\",\"email\":\"bob@example.org\",\"message\":\"hello\",\"timestamp\":1000\x7d]",
        inboxStore "wall-messages") ∧
    (handleRequest exampleRuntime calmEnv inboxStore bobContact).map
        (fun out => (out.response.status, out.response.body, out.kv "contact-submissions",
          out.kv "wall-messages")) =
      some (200, some "\x7b\"success\":true\x7d",
        some "[\x7b\"id\":7,\"name\":\"Ann\",\"email\":\"ann@example.org\",\"message\":\"hey\",\"timestamp\":7\x7d,\x7b\"id\":1000,\"name\":\"Bob\",\"email\":\"bob@example.org\",\"message\":\"hello\",\"timestamp\":1000\x7d]",
        inboxStore "wall-messages") ∧
    exampleRuntime.parse bobContact.body = some bobBody ∧
    truthy (bobBody.prop "name") = true ∧ truthy (bobBody.prop "email") = true ∧
    truthy (bobBody.prop "message") = true ∧
    unboundEnv.getThrows "contact-submissions" = false := by
  refine ⟨?_, ?_, rfl, rfl, rfl, rfl, rfl⟩ <;> decide

end Worker
